import Mathlib

/-!
# GFS2 control operations (`gfs2/ioctl.c`)

A shallow embedding of the command dispatcher `gfs2_ioctl_i` and of its
fifteen handlers.  Every handler is a function from a state to a return
value and a new state.  The state carries the in-core inode records and a
log of the calls the handler makes to its collaborators (lock manager,
transactions, allocator, quota engine, user-memory copies), in program
order.  The outcome of every collaborator call is read from an environment
`Env`, so a statement quantified over `Env` covers every combination of
collaborator outcomes.
-/

namespace Gfs2

/-! ## Error numbers (`asm-generic/errno-base.h`) -/

def EPERM : Int := 1
def EIO : Int := 5
def ENOMEM : Int := 12
def EACCES : Int := 13
def EFAULT : Int := 14
def ENOTDIR : Int := 20
def EINVAL : Int := 22
def ENOTTY : Int := 25

/-- The size of the argument buffers, `#define ARG_SIZE 32`. -/
def ARG_SIZE : Nat := 32

/-- The number of values of an `unsigned int`; arithmetic on one is modulo `U32`. -/
def U32 : Nat := 2 ^ 32

/-- Conversion of an `unsigned int` value to `int` (two's complement). -/
def to_int (n : Nat) : Int :=
  if n % 2 ^ 32 < 2 ^ 31 then ((n % 2 ^ 32 : Nat) : Int) else ((n % 2 ^ 32 : Nat) : Int) - 2 ^ 32

/-! ## File modes (`linux/stat.h`) -/

def S_IFMT : Nat := 0o170000
def S_IFREG : Nat := 0o100000
def S_IFDIR : Nat := 0o040000

def S_ISREG (m : Nat) : Bool := decide (m &&& S_IFMT = S_IFREG)
def S_ISDIR (m : Nat) : Bool := decide (m &&& S_IFMT = S_IFDIR)

/-! ## Data model -/

/-- An in-core inode is named by a number. -/
abbrev Ino := Nat

/-- The fields of `struct gfs2_dinode` (the inode record `ip->i_di`). -/
structure gfs2_dinode where
  di_mode : Nat
  di_uid : Nat
  di_gid : Nat
  di_nlink : Nat
  di_size : Nat
  di_blocks : Nat
  di_flags : Nat
  di_height : Nat
  di_eattr : Nat
  deriving DecidableEq, Repr

/-- The fields of `struct gfs2_quota`. -/
structure gfs2_quota where
  qu_limit : Nat
  qu_warn : Nat
  qu_value : Nat
  deriving DecidableEq, Repr

/-- A cluster lock: the superblock lock (`GFS2_SB_LOCK`) or an inode's `i_gl`. -/
inductive Glock where
  | sb
  | inode (ip : Ino)
  deriving DecidableEq, Repr

/-- Requested lock mode. -/
inductive LmState where
  | LM_ST_SHARED
  | LM_ST_EXCLUSIVE
  deriving DecidableEq, Repr

/-- The holder flags the handlers pass: `0`, `LM_FLAG_ANY`, `LM_FLAG_PRIORITY`. -/
inductive LmFlags where
  | zero
  | LM_FLAG_ANY
  | LM_FLAG_PRIORITY
  deriving DecidableEq, Repr

/-- A lock holder, `struct gfs2_holder`. -/
structure gfs2_holder where
  gh_gl : Glock
  gh_state : LmState
  gh_flags : LmFlags
  deriving DecidableEq, Repr

/-- Capabilities tested with `capable()`. -/
inductive Cap where
  | CAP_FOWNER
  | CAP_LINUX_IMMUTABLE
  | CAP_SYS_ADMIN
  deriving DecidableEq, Repr

/-- The fifteen commands of the dispatcher. -/
inductive Cmd where
  | get_super
  | get_file_stat
  | set_file_flag
  | get_bmap
  | get_file_meta
  | do_file_flush
  | get_hfile_stat
  | do_hfile_read
  | do_hfile_write
  | do_hfile_trunc
  | do_quota_sync
  | do_quota_refresh
  | do_quota_read
  | resize_add_rgrps
  | rename2system
  deriving DecidableEq, Repr

/-- What a `copy_to_user` into the caller's data buffer carries. -/
inductive Payload where
  | sb
  | dinode (di : gfs2_dinode)
  | dblock (n : Nat)
  | quota (q : gfs2_quota)
  deriving DecidableEq, Repr

/-- One entry of the log: a call made by a handler, with its arguments and,
where the handler branches on it, its result.  `call` is written by the
dispatcher when it invokes a handler. -/
inductive Event where
  | call (c : Cmd)
  | glock_nq (gh : gfs2_holder) (error : Int)
  | glock_dq (gh : gfs2_holder)
  | glock_force_drop (gl : Glock)
  | meta_read (gl : Glock) (error : Int)
  | trans_begin (blocks : Nat) (revokes : Nat) (error : Int)
  | trans_end
  | meta_inode_buffer (ip : Ino) (error : Int)
  | trans_add_bh (gl : Glock)
  | dinode_out (ip : Ino) (di : gfs2_dinode)
  | brelse
  | copy_to_user (data : Nat) (p : Payload) (ok : Bool)
  | copy_from_user (data : Nat) (size : Nat) (ok : Bool)
  | block_map (ip : Ino) (lblock : Nat) (new : Nat) (error : Int)
  | get_file_meta (ip : Ino) (error : Int)
  | get_dir_meta (ip : Ino) (error : Int)
  | get_eattr_meta (ip : Ino) (error : Int)
  | jdata_read (ip : Ino) (data : Nat) (offset : Nat) (size : Nat)
  | jdata_write (ip : Ino) (data : Nat) (offset : Nat) (size : Nat)
  | truncatei (ip : Ino) (offset : Nat)
  | consist_inode (ip : Ino)
  | write_alloc_required (ip : Ino) (offset : Nat) (size : Nat)
  | alloc_get (ip : Ino)
  | inplace_reserve (ip : Ino) (requested : Nat) (error : Int)
  | inplace_release (ip : Ino)
  | alloc_put (ip : Ino)
  | quota_sync
  | quota_refresh (user : Nat) (id : Nat)
  | quota_read (user : Nat) (id : Nat)
  | resize_add_rgrps (data : Nat) (size : Nat)
  | lookup_simple (dip : Ino) (name : List Char) (error : Int)
  | rename2system (ip : Ino) (old_dip : Ino) (old_name : List Char) (new_dip : Ino)
      (new_name : List Char)
  | inode_put (ip : Ino)
  deriving DecidableEq, Repr

/-- The state a handler runs in. -/
structure State where
  log : List Event
  inodes : Ino → gfs2_dinode

/-- Append one entry to the log. -/
def emit (e : Event) (st : State) : State :=
  { st with log := st.log ++ [e] }

/-- The request as the handlers see it (`struct gfs2_ioctl`, after the
dispatcher replaced `gi_argv` by its kernel copy).  `gi_argv i` is the user
string `argv[i]` points to: the bytes before its terminating NUL, or `none`
when reading it faults. -/
structure gfs2_ioctl where
  gi_argc : Nat
  gi_argv : Nat → Option (List Char)
  gi_data : Nat
  gi_size : Nat
  gi_offset : Nat

/-- The request in the caller's memory: `gi_argv` is `none` when copying the
pointer vector faults. -/
structure gfs2_ioctl_user where
  gi_argc : Nat
  gi_argv : Option (Nat → Option (List Char))
  gi_data : Nat
  gi_size : Nat
  gi_offset : Nat

/-- Everything a handler reads from outside: header constants that are not
part of the sources, the caller (`current`), the superblock object, and the
outcome of every collaborator call. -/
structure Env where
  /- sizes of on-disk records (`gfs2_ondisk.h`) -/
  sizeof_gfs2_sb : Nat
  sizeof_gfs2_dinode : Nat
  sizeof_gfs2_quota : Nat
  sizeof_gfs2_rindex : Nat
  /- transaction sizing constants (`trans.h`) -/
  RES_DINODE : Nat
  RES_STATFS : Nat
  /- inode flag bits (`gfs2_ondisk.h`) -/
  GFS2_DIF_JDATA : Nat
  GFS2_DIF_EXHASH : Nat
  GFS2_DIF_DIRECTIO : Nat
  GFS2_DIF_IMMUTABLE : Nat
  GFS2_DIF_APPENDONLY : Nat
  GFS2_DIF_INHERIT_DIRECTIO : Nat
  GFS2_DIF_INHERIT_JDATA : Nat
  /- inline predicates of `inode.h` -/
  gfs2_is_stuffed : gfs2_dinode → Bool
  gfs2_is_jdata : gfs2_dinode → Bool
  /- the caller -/
  fsuid : Nat
  capable : Cap → Bool
  /- `struct gfs2_sbd` -/
  sd_jindex : Ino
  sd_rindex : Ino
  sd_quota_inode : Ino
  sd_root_dir : Ino
  sd_master_dir : Ino
  /- memory -/
  kmalloc_ok : Bool
  kcalloc_ok : Bool
  copy_to_user_ok : Nat → Nat → Bool
  copy_from_user_u64 : Nat → Option Nat
  access_ok : Nat → Nat → Bool
  /- lock manager, buffers, transactions -/
  gfs2_glock_nq : gfs2_holder → Int
  gfs2_meta_read : Glock → Int
  gfs2_trans_begin : Nat → Nat → Int
  gfs2_meta_inode_buffer : Ino → Int
  /- block mapping and metadata export -/
  gfs2_block_map : Ino → Nat → Nat → Int × Option Nat
  gfs2_get_file_meta : Ino → Nat → Int × Nat
  gfs2_get_dir_meta : Ino → Nat → Int × Nat
  gfs2_get_eattr_meta : Ino → Nat → Int × Nat
  /- journaled data -/
  gfs2_jdata_read : Ino → Nat → Nat → Nat → Int
  gfs2_jdata_write : Ino → Nat → Nat → Nat → Int
  gfs2_truncatei : Ino → Nat → Int
  /- allocation -/
  gfs2_write_calc_reserv : Ino → Nat → Nat × Nat
  gfs2_write_alloc_required : Ino → Nat → Nat → Int × Nat
  gfs2_inplace_reserve : Ino → Nat → Int
  ri_length : Ino → Nat
  /- quota, resize, rename -/
  gfs2_quota_sync : Int
  gfs2_quota_refresh : Nat → Nat → Int
  gfs2_quota_read : Nat → Nat → Int × gfs2_quota
  gfs2_resize_add_rgrps : Nat → Nat → Int
  gfs2_lookup_simple : Ino → List Char → Except Int Ino
  gfs2_rename2system : Ino → Ino → List Char → Ino → List Char → Int

/-! ## String helpers -/

/-- The bytes `strncpy_from_user(buf, src, count)` leaves in `buf`, or `none`
when it returns a negative value. -/
def strncpy_from_user (src : Option (List Char)) (count : Nat) : Option (List Char) :=
  src.map (fun s => s.take count)

/-- The C string in `buf` after `buf[ARG_SIZE - 1] = 0`. -/
def terminate (buf : List Char) : List Char :=
  buf.take (ARG_SIZE - 1)

/-- The test `strcmp(buf, lit) == 0`. -/
def streq (buf : List Char) (lit : String) : Bool :=
  decide (buf = lit.toList)

/-- The kernel's `isspace`. -/
def isspace (c : Char) : Bool :=
  c.toNat = 32 || (9 ≤ c.toNat && c.toNat ≤ 13) || c.toNat = 160

/-- The kernel's `isdigit`. -/
def isdigit (c : Char) : Bool :=
  48 ≤ c.toNat && c.toNat ≤ 57

/-- The value `simple_strtoul(s, &next, 10)` accumulates over the leading
digits of `s`, before any wrap-around. -/
def simple_strtoul (s : List Char) : Nat :=
  (s.takeWhile isdigit).foldl (fun acc c => acc * 10 + (c.toNat - 48)) 0

/-- The call `sscanf(s, "%u", &id)`: `some id` when it returns 1.  Leading
white space is skipped, the next byte must be a digit, the digits that follow
are converted and whatever comes after them is left unread. -/
def sscanf_u (s : List Char) : Option Nat :=
  match s.dropWhile isspace with
  | [] => none
  | c :: rest => if isdigit c then some (simple_strtoul (c :: rest) % U32) else none

/-! ## The handlers -/

/-- Handler `gi_get_super`: return the `struct gfs2_sb` of the filesystem. -/
def gi_get_super (env : Env) (gi : gfs2_ioctl) (st : State) : Int × State :=
  if gi.gi_argc ≠ 1 then (-EINVAL, st)
  else if gi.gi_size ≠ env.sizeof_gfs2_sb then (-EINVAL, st)
  else if !env.kmalloc_ok then (-ENOMEM, st)
  else
    let sb_gh : gfs2_holder := ⟨Glock.sb, LmState.LM_ST_SHARED, LmFlags.zero⟩
    let error := env.gfs2_glock_nq sb_gh
    let st := emit (Event.glock_nq sb_gh error) st
    if error ≠ 0 then (error, st)
    else
      let error := env.gfs2_meta_read sb_gh.gh_gl
      let st := emit (Event.meta_read sb_gh.gh_gl error) st
      if error ≠ 0 then (error, emit (Event.glock_dq sb_gh) st)
      else
        let st := emit Event.brelse st
        let st := emit (Event.glock_dq sb_gh) st
        let ok := env.copy_to_user_ok gi.gi_data env.sizeof_gfs2_sb
        let st := emit (Event.copy_to_user gi.gi_data Payload.sb ok) st
        if !ok then (-EFAULT, st) else (to_int env.sizeof_gfs2_sb, st)

/-- Handler `gi_get_file_stat`: copy out the inode record of `ip`. -/
def gi_get_file_stat (env : Env) (ip : Ino) (gi : gfs2_ioctl) (st : State) : Int × State :=
  if gi.gi_argc ≠ 1 then (-EINVAL, st)
  else if gi.gi_size ≠ env.sizeof_gfs2_dinode then (-EINVAL, st)
  else if !env.kmalloc_ok then (-ENOMEM, st)
  else
    let i_gh : gfs2_holder := ⟨Glock.inode ip, LmState.LM_ST_SHARED, LmFlags.LM_FLAG_ANY⟩
    let error := env.gfs2_glock_nq i_gh
    let st := emit (Event.glock_nq i_gh error) st
    if error ≠ 0 then (error, st)
    else
      let di := st.inodes ip
      let st := emit (Event.glock_dq i_gh) st
      let ok := env.copy_to_user_ok gi.gi_data env.sizeof_gfs2_dinode
      let st := emit (Event.copy_to_user gi.gi_data (Payload.dinode di) ok) st
      if !ok then (-EFAULT, st) else (to_int env.sizeof_gfs2_dinode, st)

/-- The flag-name chain of `gi_set_file_flag` (lines 159-192): the flag bit
to change, or the value of `error` with which the chain jumps to `out`. -/
def set_file_flag_select (env : Env) (di : gfs2_dinode) (buf : List Char) : Except Int Nat :=
  if streq buf "jdata" then
    if !S_ISREG di.di_mode || di.di_size ≠ 0 then Except.error (-EINVAL)
    else Except.ok env.GFS2_DIF_JDATA
  else if streq buf "directio" then
    if !S_ISREG di.di_mode then Except.error (-EINVAL)
    else Except.ok env.GFS2_DIF_DIRECTIO
  else if streq buf "immutable" then
    if !env.capable Cap.CAP_LINUX_IMMUTABLE then Except.error (-EPERM)
    else Except.ok env.GFS2_DIF_IMMUTABLE
  else if streq buf "appendonly" then
    if !env.capable Cap.CAP_LINUX_IMMUTABLE then Except.error (-EPERM)
    else Except.ok env.GFS2_DIF_APPENDONLY
  else if streq buf "inherit_jdata" then
    if !S_ISDIR di.di_mode then Except.error (-EINVAL)
    else Except.ok env.GFS2_DIF_INHERIT_JDATA
  else if streq buf "inherit_directio" then
    if S_ISDIR di.di_mode then Except.error (-EINVAL)
    else Except.ok env.GFS2_DIF_INHERIT_DIRECTIO
  else Except.error (-EINVAL)

/-- The assignment `di_flags |= flag` or `di_flags &= ~flag` on a 32-bit word. -/
def apply_flag (set : Bool) (flag : Nat) (di : gfs2_dinode) : gfs2_dinode :=
  if set then { di with di_flags := di.di_flags ||| flag }
  else { di with di_flags := di.di_flags &&& (0xFFFFFFFF ^^^ flag) }

/-- Label `out:` of `gi_set_file_flag`: release the lock and return. -/
def set_file_flag_out (i_gh : gfs2_holder) (error : Int) (st : State) : Int × State :=
  (error, emit (Event.glock_dq i_gh) st)

/-- Label `out_trans_end:` of `gi_set_file_flag`, which falls through to `out:`. -/
def set_file_flag_out_trans_end (i_gh : gfs2_holder) (error : Int) (st : State) : Int × State :=
  set_file_flag_out i_gh error (emit Event.trans_end st)

/-- The part of `gi_set_file_flag` that runs with the lock held (lines 155-218). -/
def set_file_flag_locked (env : Env) (ip : Ino) (set : Bool) (buf : List Char)
    (i_gh : gfs2_holder) (st : State) : Int × State :=
  if (st.inodes ip).di_uid ≠ env.fsuid && !env.capable Cap.CAP_FOWNER then
    set_file_flag_out i_gh (-EACCES) st
  else
    match set_file_flag_select env (st.inodes ip) buf with
    | Except.error e => set_file_flag_out i_gh e st
    | Except.ok flag =>
      let error := env.gfs2_trans_begin env.RES_DINODE 0
      let st := emit (Event.trans_begin env.RES_DINODE 0 error) st
      if error ≠ 0 then set_file_flag_out i_gh error st
      else
        let error := env.gfs2_meta_inode_buffer ip
        let st := emit (Event.meta_inode_buffer ip error) st
        if error ≠ 0 then set_file_flag_out_trans_end i_gh error st
        else
          let di := apply_flag set flag (st.inodes ip)
          let st := { st with inodes := Function.update st.inodes ip di }
          let st := emit (Event.trans_add_bh (Glock.inode ip)) st
          let st := emit (Event.dinode_out ip di) st
          let st := emit Event.brelse st
          set_file_flag_out_trans_end i_gh error st

/-- Handler `gi_set_file_flag`: set or clear one flag of the inode record. -/
def gi_set_file_flag (env : Env) (ip : Ino) (gi : gfs2_ioctl) (st : State) : Int × State :=
  if gi.gi_argc ≠ 3 then (-EINVAL, st)
  else
    match strncpy_from_user (gi.gi_argv 1) ARG_SIZE with
    | none => (-EFAULT, st)
    | some b1 =>
      let buf := terminate b1
      if !(streq buf "set") && !(streq buf "clear") then (-EINVAL, st)
      else
        let set : Bool := streq buf "set"
        match strncpy_from_user (gi.gi_argv 2) ARG_SIZE with
        | none => (-EFAULT, st)
        | some b2 =>
          let buf := terminate b2
          let i_gh : gfs2_holder := ⟨Glock.inode ip, LmState.LM_ST_EXCLUSIVE, LmFlags.zero⟩
          let error := env.gfs2_glock_nq i_gh
          let st := emit (Event.glock_nq i_gh error) st
          if error ≠ 0 then (error, st)
          else set_file_flag_locked env ip set buf i_gh st

/-- Handler `gi_get_bmap`: map one logical block to its physical block. -/
def gi_get_bmap (env : Env) (ip : Ino) (gi : gfs2_ioctl) (st : State) : Int × State :=
  if gi.gi_argc ≠ 1 then (-EINVAL, st)
  else if gi.gi_size ≠ 8 then (-EINVAL, st)
  else
    let src := env.copy_from_user_u64 gi.gi_data
    let st := emit (Event.copy_from_user gi.gi_data 8 src.isSome) st
    match src with
    | none => (-EFAULT, st)
    | some lblock =>
      let gh : gfs2_holder := ⟨Glock.inode ip, LmState.LM_ST_SHARED, LmFlags.LM_FLAG_ANY⟩
      let error := env.gfs2_glock_nq gh
      let st := emit (Event.glock_nq gh error) st
      if error ≠ 0 then (error, st)
      else
        let new : Nat := 0
        let r : Int × Nat × State :=
          if (st.inodes ip).di_uid = env.fsuid || env.capable Cap.CAP_FOWNER then
            if !env.gfs2_is_stuffed (st.inodes ip) then
              let m := env.gfs2_block_map ip lblock new
              (m.1, m.2.getD 0, emit (Event.block_map ip lblock new m.1) st)
            else (0, 0, st)
          else (-EACCES, 0, st)
        let error := r.1
        let dblock := r.2.1
        let st := emit (Event.glock_dq gh) r.2.2
        if error = 0 then
          let ok := env.copy_to_user_ok gi.gi_data 8
          let st := emit (Event.copy_to_user gi.gi_data (Payload.dblock dblock) ok) st
          if !ok then (-EFAULT, st) else (0, st)
        else (error, st)

/-- Label `out:` of `gi_get_file_meta`: release the lock and return. -/
def get_file_meta_out (i_gh : gfs2_holder) (error : Int) (st : State) : Int × State :=
  (error, emit (Event.glock_dq i_gh) st)

/-- The end of `gi_get_file_meta` (lines 300-311): the extended attributes,
then `error = ub.ub_count`. -/
def get_file_meta_eattr (env : Env) (ip : Ino) (i_gh : gfs2_holder) (ub_count : Nat)
    (st : State) : Int × State :=
  if (st.inodes ip).di_eattr ≠ 0 then
    let e := env.gfs2_get_eattr_meta ip ub_count
    let st := emit (Event.get_eattr_meta ip e.1) st
    if e.1 ≠ 0 then get_file_meta_out i_gh e.1 st
    else get_file_meta_out i_gh (to_int e.2) st
  else get_file_meta_out i_gh (to_int ub_count) st

/-- Handler `gi_get_file_meta`: export all the metadata of a file. -/
def gi_get_file_meta (env : Env) (ip : Ino) (gi : gfs2_ioctl) (st : State) : Int × State :=
  if gi.gi_argc ≠ 1 then (-EINVAL, st)
  else
    let ub_count : Nat := 0
    let i_gh : gfs2_holder := ⟨Glock.inode ip, LmState.LM_ST_SHARED, LmFlags.LM_FLAG_ANY⟩
    let error := env.gfs2_glock_nq i_gh
    let st := emit (Event.glock_nq i_gh error) st
    if error ≠ 0 then (error, st)
    else if (st.inodes ip).di_uid ≠ env.fsuid && !env.capable Cap.CAP_FOWNER then
      get_file_meta_out i_gh (-EACCES) st
    else
      let r := env.gfs2_get_file_meta ip ub_count
      let st := emit (Event.get_file_meta ip r.1) st
      if r.1 ≠ 0 then get_file_meta_out i_gh r.1 st
      else
        let ub_count := r.2
        if S_ISDIR (st.inodes ip).di_mode &&
            decide ((st.inodes ip).di_flags &&& env.GFS2_DIF_EXHASH ≠ 0) then
          let d := env.gfs2_get_dir_meta ip ub_count
          let st := emit (Event.get_dir_meta ip d.1) st
          if d.1 ≠ 0 then get_file_meta_out i_gh d.1 st
          else get_file_meta_eattr env ip i_gh d.2 st
        else get_file_meta_eattr env ip i_gh ub_count st

/-- Handler `gi_do_file_flush`: drop the cache and the lock of a file. -/
def gi_do_file_flush (_env : Env) (ip : Ino) (gi : gfs2_ioctl) (st : State) : Int × State :=
  if gi.gi_argc ≠ 1 then (-EINVAL, st)
  else (0, emit (Event.glock_force_drop (Glock.inode ip)) st)

/-- Function `gi2hip`: the inode of a hidden file, or the `ERR_PTR` value. -/
def gi2hip (env : Env) (gi : gfs2_ioctl) : Except Int Ino :=
  if gi.gi_argc ≠ 2 then Except.error (-EINVAL)
  else
    match strncpy_from_user (gi.gi_argv 1) ARG_SIZE with
    | none => Except.error (-EFAULT)
    | some b =>
      let buf := terminate b
      if streq buf "jindex" then Except.ok env.sd_jindex
      else if streq buf "rindex" then Except.ok env.sd_rindex
      else if streq buf "quota" then Except.ok env.sd_quota_inode
      else Except.error (-EINVAL)

/-- Handler `gi_get_hfile_stat`: copy out the inode record of a hidden file. -/
def gi_get_hfile_stat (env : Env) (gi : gfs2_ioctl) (st : State) : Int × State :=
  match gi2hip env gi with
  | Except.error e => (e, st)
  | Except.ok ip =>
    if gi.gi_size ≠ env.sizeof_gfs2_dinode then (-EINVAL, st)
    else if !env.kmalloc_ok then (-ENOMEM, st)
    else
      let i_gh : gfs2_holder := ⟨Glock.inode ip, LmState.LM_ST_SHARED, LmFlags.LM_FLAG_ANY⟩
      let error := env.gfs2_glock_nq i_gh
      let st := emit (Event.glock_nq i_gh error) st
      if error ≠ 0 then (error, st)
      else
        let di := st.inodes ip
        let st := emit (Event.glock_dq i_gh) st
        let ok := env.copy_to_user_ok gi.gi_data env.sizeof_gfs2_dinode
        let st := emit (Event.copy_to_user gi.gi_data (Payload.dinode di) ok) st
        if !ok then (-EFAULT, st) else (to_int env.sizeof_gfs2_dinode, st)

/-- Handler `gi_do_hfile_read`: read data from a hidden file. -/
def gi_do_hfile_read (env : Env) (gi : gfs2_ioctl) (st : State) : Int × State :=
  if !env.capable Cap.CAP_SYS_ADMIN then (-EACCES, st)
  else
    match gi2hip env gi with
    | Except.error e => (e, st)
    | Except.ok ip =>
      if !S_ISREG (st.inodes ip).di_mode then (-EINVAL, st)
      else if !env.access_ok gi.gi_data gi.gi_size then (-EFAULT, st)
      else
        let i_gh : gfs2_holder := ⟨Glock.inode ip, LmState.LM_ST_SHARED, LmFlags.zero⟩
        let error := env.gfs2_glock_nq i_gh
        let st := emit (Event.glock_nq i_gh error) st
        if error ≠ 0 then (error, st)
        else
          let error := env.gfs2_jdata_read ip gi.gi_data gi.gi_offset gi.gi_size
          let st := emit (Event.jdata_read ip gi.gi_data gi.gi_offset gi.gi_size) st
          (error, emit (Event.glock_dq i_gh) st)

/-- Label `out:` of `gi_do_hfile_write`: release the lock and return. -/
def hfile_write_out (i_gh : gfs2_holder) (error : Int) (st : State) : Int × State :=
  (error, emit (Event.glock_dq i_gh) st)

/-- Label `out_alloc:` of `gi_do_hfile_write`, which falls through to `out:`. -/
def hfile_write_out_alloc (ip : Ino) (i_gh : gfs2_holder) (alloc_required : Nat)
    (error : Int) (st : State) : Int × State :=
  if alloc_required ≠ 0 then hfile_write_out i_gh error (emit (Event.alloc_put ip) st)
  else hfile_write_out i_gh error st

/-- Label `out_relse:` of `gi_do_hfile_write`, which falls through to `out_alloc:`. -/
def hfile_write_out_relse (ip : Ino) (i_gh : gfs2_holder) (alloc_required : Nat)
    (error : Int) (st : State) : Int × State :=
  if alloc_required ≠ 0 then
    hfile_write_out_alloc ip i_gh alloc_required error (emit (Event.inplace_release ip) st)
  else hfile_write_out_alloc ip i_gh alloc_required error st

/-- Lines 511-514 of `gi_do_hfile_write`: the write and the end of the
transaction, falling through to `out_relse:`. -/
def hfile_write_data (env : Env) (gi : gfs2_ioctl) (ip : Ino) (i_gh : gfs2_holder)
    (alloc_required : Nat) (st : State) : Int × State :=
  let error := env.gfs2_jdata_write ip gi.gi_data gi.gi_offset gi.gi_size
  let st := emit (Event.jdata_write ip gi.gi_data gi.gi_offset gi.gi_size) st
  hfile_write_out_relse ip i_gh alloc_required error (emit Event.trans_end st)

/-- The part of `gi_do_hfile_write` that runs with the lock held (lines 479-527). -/
def hfile_write_locked (env : Env) (gi : gfs2_ioctl) (ip : Ino) (i_gh : gfs2_holder)
    (data_blocks ind_blocks : Nat) (st : State) : Int × State :=
  if !env.gfs2_is_jdata (st.inodes ip) then
    hfile_write_out i_gh (- EIO) (emit (Event.consist_inode ip) st)
  else
    let r := env.gfs2_write_alloc_required ip gi.gi_offset gi.gi_size
    let st := emit (Event.write_alloc_required ip gi.gi_offset gi.gi_size) st
    if r.1 ≠ 0 then hfile_write_out i_gh r.1 st
    else
      let alloc_required := r.2
      if alloc_required ≠ 0 then
        let st := emit (Event.alloc_get ip) st
        let al_requested := (data_blocks + ind_blocks) % U32
        let error := env.gfs2_inplace_reserve ip al_requested
        let st := emit (Event.inplace_reserve ip al_requested error) st
        if error ≠ 0 then hfile_write_out_alloc ip i_gh alloc_required error st
        else
          let blocks :=
            (env.ri_length ip + data_blocks + ind_blocks + env.RES_DINODE + env.RES_STATFS) % U32
          let error := env.gfs2_trans_begin blocks 0
          let st := emit (Event.trans_begin blocks 0 error) st
          if error ≠ 0 then hfile_write_out_relse ip i_gh alloc_required error st
          else hfile_write_data env gi ip i_gh alloc_required st
      else
        let blocks := (data_blocks + env.RES_DINODE) % U32
        let error := env.gfs2_trans_begin blocks 0
        let st := emit (Event.trans_begin blocks 0 error) st
        if error ≠ 0 then hfile_write_out i_gh error st
        else hfile_write_data env gi ip i_gh alloc_required st

/-- Handler `gi_do_hfile_write`: write data to a hidden file. -/
def gi_do_hfile_write (env : Env) (gi : gfs2_ioctl) (st : State) : Int × State :=
  if !env.capable Cap.CAP_SYS_ADMIN then (-EACCES, st)
  else
    match gi2hip env gi with
    | Except.error e => (e, st)
    | Except.ok ip =>
      if !S_ISREG (st.inodes ip).di_mode then (-EINVAL, st)
      else if !env.access_ok gi.gi_data gi.gi_size then (-EFAULT, st)
      else
        let data_blocks := (env.gfs2_write_calc_reserv ip gi.gi_size).1
        let ind_blocks := (env.gfs2_write_calc_reserv ip gi.gi_size).2
        let i_gh : gfs2_holder := ⟨Glock.inode ip, LmState.LM_ST_EXCLUSIVE, LmFlags.LM_FLAG_PRIORITY⟩
        let error := env.gfs2_glock_nq i_gh
        let st := emit (Event.glock_nq i_gh error) st
        if error ≠ 0 then (error, st)
        else hfile_write_locked env gi ip i_gh data_blocks ind_blocks st

/-- Handler `gi_do_hfile_trunc`: truncate a hidden file. -/
def gi_do_hfile_trunc (env : Env) (gi : gfs2_ioctl) (st : State) : Int × State :=
  if !env.capable Cap.CAP_SYS_ADMIN then (-EACCES, st)
  else
    match gi2hip env gi with
    | Except.error e => (e, st)
    | Except.ok ip =>
      if !S_ISREG (st.inodes ip).di_mode then (-EINVAL, st)
      else
        let i_gh : gfs2_holder := ⟨Glock.inode ip, LmState.LM_ST_EXCLUSIVE, LmFlags.zero⟩
        let error := env.gfs2_glock_nq i_gh
        let st := emit (Event.glock_nq i_gh error) st
        if error ≠ 0 then (error, st)
        else
          let error := env.gfs2_truncatei ip gi.gi_offset
          let st := emit (Event.truncatei ip gi.gi_offset) st
          (error, emit (Event.glock_dq i_gh) st)

/-- Handler `gi_do_quota_sync`: sync the outstanding quota changes. -/
def gi_do_quota_sync (env : Env) (gi : gfs2_ioctl) (st : State) : Int × State :=
  if !env.capable Cap.CAP_SYS_ADMIN then (-EACCES, st)
  else if gi.gi_argc ≠ 1 then (-EINVAL, st)
  else (env.gfs2_quota_sync, emit Event.quota_sync st)

/-- The argument parsing shared by the two quota handlers (`switch (buf[0])`,
the test of `buf[1]` and the `sscanf` of `buf + 2`): `(user, id)`, or `none`
where the handler returns `-EINVAL`. -/
def quota_arg (buf : List Char) : Option (Nat × Nat) :=
  let user : Option Nat :=
    match buf.head? with
    | some 'u' => some 1
    | some 'g' => some 0
    | _ => none
  match user with
  | none => none
  | some user =>
    if (buf.drop 1).head? ≠ some ':' then none
    else
      match sscanf_u (buf.drop 2) with
      | none => none
      | some id => some (user, id)

/-- Handler `gi_do_quota_refresh`: refresh a quota LVB from the quota file. -/
def gi_do_quota_refresh (env : Env) (gi : gfs2_ioctl) (st : State) : Int × State :=
  if !env.capable Cap.CAP_SYS_ADMIN then (-EACCES, st)
  else if gi.gi_argc ≠ 2 then (-EINVAL, st)
  else
    match strncpy_from_user (gi.gi_argv 1) ARG_SIZE with
    | none => (-EFAULT, st)
    | some b =>
      match quota_arg (terminate b) with
      | none => (-EINVAL, st)
      | some (user, id) =>
        (env.gfs2_quota_refresh user id, emit (Event.quota_refresh user id) st)

/-- Handler `gi_do_quota_read`: read quota values from the quota file. -/
def gi_do_quota_read (env : Env) (gi : gfs2_ioctl) (st : State) : Int × State :=
  if gi.gi_argc ≠ 2 then (-EINVAL, st)
  else if gi.gi_size ≠ env.sizeof_gfs2_quota then (-EINVAL, st)
  else
    match strncpy_from_user (gi.gi_argv 1) ARG_SIZE with
    | none => (-EFAULT, st)
    | some b =>
      match quota_arg (terminate b) with
      | none => (-EINVAL, st)
      | some (user, id) =>
        let r := env.gfs2_quota_read user id
        let st := emit (Event.quota_read user id) st
        if r.1 ≠ 0 then (r.1, st)
        else
          let ok := env.copy_to_user_ok gi.gi_data env.sizeof_gfs2_quota
          let st := emit (Event.copy_to_user gi.gi_data (Payload.quota r.2) ok) st
          if !ok then (-EFAULT, st) else (0, st)

/-- Handler `gi_resize_add_rgrps`: append resource groups to the filesystem. -/
def gi_resize_add_rgrps (env : Env) (gi : gfs2_ioctl) (st : State) : Int × State :=
  if !env.capable Cap.CAP_SYS_ADMIN then (-EACCES, st)
  else if gi.gi_argc ≠ 1 then (-EINVAL, st)
  else if gi.gi_size % env.sizeof_gfs2_rindex ≠ 0 then (-EINVAL, st)
  else
    (env.gfs2_resize_add_rgrps gi.gi_data gi.gi_size,
      emit (Event.resize_add_rgrps gi.gi_data gi.gi_size) st)

/-- The error a `gfs2_lookup_simple` result stands for (0 when it succeeds). -/
def lookup_error (r : Except Int Ino) : Int :=
  match r with
  | Except.error e => e
  | Except.ok _ => 0

/-- Label `out:` of `gi_rename2system`: put `old_dip` and return. -/
def rename2system_out (old_dip : Ino) (error : Int) (st : State) : Int × State :=
  (error, emit (Event.inode_put old_dip) st)

/-- Label `out2:` of `gi_rename2system`, which falls through to `out:`. -/
def rename2system_out2 (old_dip ip : Ino) (error : Int) (st : State) : Int × State :=
  rename2system_out old_dip error (emit (Event.inode_put ip) st)

/-- Lines 720-744 of `gi_rename2system`: the choice of the target directory
and the rename, with `old_dip` and `ip` looked up. -/
def rename2system_move (env : Env) (old_dip ip : Ino) (new_dir new_name : List Char)
    (st : State) : Int × State :=
  if streq new_dir "per_node" then
    let r := env.gfs2_lookup_simple env.sd_master_dir "per_node".toList
    let st := emit (Event.lookup_simple env.sd_master_dir "per_node".toList (lookup_error r)) st
    match r with
    | Except.error e => rename2system_out2 old_dip ip e st
    | Except.ok new_dip =>
      let error := env.gfs2_rename2system ip old_dip "new_inode".toList new_dip new_name
      let st := emit (Event.rename2system ip old_dip "new_inode".toList new_dip new_name) st
      rename2system_out2 old_dip ip error (emit (Event.inode_put new_dip) st)
  else if streq new_dir "jindex" then
    let new_dip := env.sd_jindex
    let error := env.gfs2_rename2system ip old_dip "new_inode".toList new_dip new_name
    let st := emit (Event.rename2system ip old_dip "new_inode".toList new_dip new_name) st
    rename2system_out2 old_dip ip error st
  else rename2system_out2 old_dip ip (-EINVAL) st

/-- Handler `gi_rename2system`: move the staged inode into a system directory. -/
def gi_rename2system (env : Env) (gi : gfs2_ioctl) (st : State) : Int × State :=
  if !env.capable Cap.CAP_SYS_ADMIN then (-EACCES, st)
  else if gi.gi_argc ≠ 3 then (-EINVAL, st)
  else
    match strncpy_from_user (gi.gi_argv 1) ARG_SIZE with
    | none => (-EFAULT, st)
    | some b1 =>
      let new_dir := terminate b1
      match strncpy_from_user (gi.gi_argv 2) ARG_SIZE with
      | none => (-EFAULT, st)
      | some b2 =>
        let new_name := terminate b2
        let r := env.gfs2_lookup_simple env.sd_root_dir ".gfs2_admin".toList
        let st := emit (Event.lookup_simple env.sd_root_dir ".gfs2_admin".toList (lookup_error r)) st
        match r with
        | Except.error e => (e, st)
        | Except.ok old_dip =>
          if !S_ISDIR (st.inodes old_dip).di_mode then rename2system_out old_dip (-ENOTDIR) st
          else
            let r := env.gfs2_lookup_simple old_dip "new_inode".toList
            let st := emit (Event.lookup_simple old_dip "new_inode".toList (lookup_error r)) st
            match r with
            | Except.error e => rename2system_out old_dip e st
            | Except.ok ip => rename2system_move env old_dip ip new_dir new_name st

/-! ## The dispatcher -/

/-- The entry point `gfs2_ioctl_i(ip, arg)`; `arg` is `none` when copying the
request header from the caller faults. -/
def gfs2_ioctl_i (env : Env) (ip : Ino) (arg : Option gfs2_ioctl_user) (st : State) :
    Int × State :=
  match arg with
  | none => (-EFAULT, st)
  | some gi_user =>
    if gi_user.gi_argc = 0 then (-EINVAL, st)
    else if !env.kcalloc_ok then (-ENOMEM, st)
    else
      match gi_user.gi_argv with
      | none => (-EFAULT, st)
      | some argv =>
        let gi : gfs2_ioctl :=
          ⟨gi_user.gi_argc, argv, gi_user.gi_data, gi_user.gi_size, gi_user.gi_offset⟩
        match strncpy_from_user (argv 0) ARG_SIZE with
        | none => (-EFAULT, st)
        | some b =>
          let arg0 := terminate b
          if streq arg0 "get_super" then
            gi_get_super env gi (emit (Event.call Cmd.get_super) st)
          else if streq arg0 "get_file_stat" then
            gi_get_file_stat env ip gi (emit (Event.call Cmd.get_file_stat) st)
          else if streq arg0 "set_file_flag" then
            gi_set_file_flag env ip gi (emit (Event.call Cmd.set_file_flag) st)
          else if streq arg0 "get_bmap" then
            gi_get_bmap env ip gi (emit (Event.call Cmd.get_bmap) st)
          else if streq arg0 "get_file_meta" then
            gi_get_file_meta env ip gi (emit (Event.call Cmd.get_file_meta) st)
          else if streq arg0 "do_file_flush" then
            gi_do_file_flush env ip gi (emit (Event.call Cmd.do_file_flush) st)
          else if streq arg0 "get_hfile_stat" then
            gi_get_hfile_stat env gi (emit (Event.call Cmd.get_hfile_stat) st)
          else if streq arg0 "do_hfile_read" then
            gi_do_hfile_read env gi (emit (Event.call Cmd.do_hfile_read) st)
          else if streq arg0 "do_hfile_write" then
            gi_do_hfile_write env gi (emit (Event.call Cmd.do_hfile_write) st)
          else if streq arg0 "do_hfile_trunc" then
            gi_do_hfile_trunc env gi (emit (Event.call Cmd.do_hfile_trunc) st)
          else if streq arg0 "do_quota_sync" then
            gi_do_quota_sync env gi (emit (Event.call Cmd.do_quota_sync) st)
          else if streq arg0 "do_quota_refresh" then
            gi_do_quota_refresh env gi (emit (Event.call Cmd.do_quota_refresh) st)
          else if streq arg0 "do_quota_read" then
            gi_do_quota_read env gi (emit (Event.call Cmd.do_quota_read) st)
          else if streq arg0 "resize_add_rgrps" then
            gi_resize_add_rgrps env gi (emit (Event.call Cmd.resize_add_rgrps) st)
          else if streq arg0 "rename2system" then
            gi_rename2system env gi (emit (Event.call Cmd.rename2system) st)
          else (-ENOTTY, st)

/-! ## Extended attributes (`gfs2/eattr.h`) -/

/-- The fields of `struct gfs2_ea_header` (declared in `gfs2_ondisk.h`) that
the macros of `eattr.h` read. -/
structure gfs2_ea_header where
  ea_rec_len : Nat
  ea_data_len : Nat
  ea_name_len : Nat
  ea_type : Nat
  ea_flags : Nat
  ea_num_ptrs : Nat
  deriving DecidableEq, Repr

/-- Macro `GFS2_EA_STRLEN(ea)`.  The constant `GFS2_EATYPE_USR` of
`gfs2_ondisk.h` is a parameter. -/
def GFS2_EA_STRLEN (GFS2_EATYPE_USR : Nat) (ea : gfs2_ea_header) : Nat :=
  (if ea.ea_type = GFS2_EATYPE_USR then 5 else 7) + ea.ea_name_len + 1

/-- Modelled from the spec: macro `MAKE_MULT8` of `gfs2.h`, which is not under
src/.  The spec speaks of the record size "rounded up to a multiple of 8". -/
def MAKE_MULT8 (x : Nat) : Nat :=
  (x + 7) / 8 * 8

/-- Modelled from the spec: macro `DIV_RU` of `gfs2.h`, which is not under src/:
`x` divided by `y`, rounded up, the number of blocks of `y` bytes for `x` bytes. -/
def DIV_RU (x y : Nat) : Nat :=
  (x + y - 1) / y

/-- Macro `GFS2_EA_DATA_LEN(ea)`; the field holds the decoded value. -/
def GFS2_EA_DATA_LEN (ea : gfs2_ea_header) : Nat :=
  ea.ea_data_len

/-- Macro `GFS2_EA_IS_STUFFED(ea)`: the record has no data pointers. -/
def GFS2_EA_IS_STUFFED (ea : gfs2_ea_header) : Bool :=
  decide (ea.ea_num_ptrs = 0)

/-- Macro `GFS2_EA_SIZE(ea)`.  The size of `struct gfs2_ea_header` (declared in
`gfs2_ondisk.h`) is a parameter; `sizeof(uint64_t)` is 8.  The sum is formed in
`size_t` from fields of at most 32 bits and is taken over the naturals. -/
def GFS2_EA_SIZE (sizeof_gfs2_ea_header : Nat) (ea : gfs2_ea_header) : Nat :=
  MAKE_MULT8 (sizeof_gfs2_ea_header + ea.ea_name_len +
    (if GFS2_EA_IS_STUFFED ea then GFS2_EA_DATA_LEN ea else 8 * ea.ea_num_ptrs))

/-- The numeric fields of `struct gfs2_ea_request`. -/
structure gfs2_ea_request where
  er_name_len : Nat
  er_data_len : Nat
  er_type : Nat
  er_flags : Int
  er_mode : Nat
  deriving DecidableEq, Repr

/-- Macro `GFS2_EAREQ_SIZE_STUFFED(er)`. -/
def GFS2_EAREQ_SIZE_STUFFED (sizeof_gfs2_ea_header : Nat) (er : gfs2_ea_request) : Nat :=
  MAKE_MULT8 (sizeof_gfs2_ea_header + er.er_name_len + er.er_data_len)

/-- Macro `GFS2_EAREQ_SIZE_UNSTUFFED(sdp, er)`; of `sdp` it reads `sd_jbsize`. -/
def GFS2_EAREQ_SIZE_UNSTUFFED (sizeof_gfs2_ea_header : Nat) (sd_jbsize : Nat)
    (er : gfs2_ea_request) : Nat :=
  MAKE_MULT8 (sizeof_gfs2_ea_header + er.er_name_len +
    8 * DIV_RU er.er_data_len sd_jbsize)

/-! ## Vocabulary of the statements -/

/-- The command name the dispatcher compares `argv[0]` with. -/
def Cmd.name : Cmd → String
  | Cmd.get_super => "get_super"
  | Cmd.get_file_stat => "get_file_stat"
  | Cmd.set_file_flag => "set_file_flag"
  | Cmd.get_bmap => "get_bmap"
  | Cmd.get_file_meta => "get_file_meta"
  | Cmd.do_file_flush => "do_file_flush"
  | Cmd.get_hfile_stat => "get_hfile_stat"
  | Cmd.do_hfile_read => "do_hfile_read"
  | Cmd.do_hfile_write => "do_hfile_write"
  | Cmd.do_hfile_trunc => "do_hfile_trunc"
  | Cmd.do_quota_sync => "do_quota_sync"
  | Cmd.do_quota_refresh => "do_quota_refresh"
  | Cmd.do_quota_read => "do_quota_read"
  | Cmd.resize_add_rgrps => "resize_add_rgrps"
  | Cmd.rename2system => "rename2system"

/-- The handler of each command, with the arguments the dispatcher passes. -/
def Cmd.handler (env : Env) (ip : Ino) : Cmd → gfs2_ioctl → State → Int × State
  | Cmd.get_super => gi_get_super env
  | Cmd.get_file_stat => gi_get_file_stat env ip
  | Cmd.set_file_flag => gi_set_file_flag env ip
  | Cmd.get_bmap => gi_get_bmap env ip
  | Cmd.get_file_meta => gi_get_file_meta env ip
  | Cmd.do_file_flush => gi_do_file_flush env ip
  | Cmd.get_hfile_stat => gi_get_hfile_stat env
  | Cmd.do_hfile_read => gi_do_hfile_read env
  | Cmd.do_hfile_write => gi_do_hfile_write env
  | Cmd.do_hfile_trunc => gi_do_hfile_trunc env
  | Cmd.do_quota_sync => gi_do_quota_sync env
  | Cmd.do_quota_refresh => gi_do_quota_refresh env
  | Cmd.do_quota_read => gi_do_quota_read env
  | Cmd.resize_add_rgrps => gi_resize_add_rgrps env
  | Cmd.rename2system => gi_rename2system env

/-- The handlers a stretch of the log shows as invoked, in order. -/
def calls (evs : List Event) : List Cmd :=
  evs.filterMap (fun e => match e with
    | Event.call c => some c
    | _ => none)

/-- The lock acquisitions (granted or not) a stretch of the log shows. -/
def acquisitions (evs : List Event) : List gfs2_holder :=
  evs.filterMap (fun e => match e with
    | Event.glock_nq gh _ => some gh
    | _ => none)

/-- One step of the lock audit: `held` lists the holders granted and not yet
released.  Granting a holder that is already held, or releasing one that is
not, fails the audit. -/
def lock_step (held : List gfs2_holder) (e : Event) : Option (List gfs2_holder) :=
  match e with
  | Event.glock_nq gh error =>
    if error = 0 then (if gh ∈ held then none else some (gh :: held)) else some held
  | Event.glock_dq gh => if gh ∈ held then some (held.erase gh) else none
  | _ => some held

/-- The lock audit of a stretch of the log, started with `held`. -/
def lock_run (held : List gfs2_holder) : List Event → Option (List gfs2_holder)
  | [] => some held
  | e :: evs =>
    match lock_step held e with
    | none => none
    | some held1 => lock_run held1 evs

/-- The lock discipline: every granted holder is released exactly once, no
holder is released that is not held, and none is held at the end. -/
def LockDiscipline (evs : List Event) : Prop :=
  lock_run [] evs = some []

instance (evs : List Event) : Decidable (LockDiscipline evs) :=
  inferInstanceAs (Decidable (lock_run [] evs = some []))

/-- Where a handler stands with respect to its lock and its transaction. -/
inductive TxState where
  | unlocked
  | locked (gh : gfs2_holder)
  | in_trans (gh : gfs2_holder)
  | ended (gh : gfs2_holder)
  | failed (gh : gfs2_holder)
  deriving DecidableEq, Repr

/-- One step of the transaction audit.  A transaction may begin only under a
granted exclusive lock; a begin that succeeds must be followed by one end
before the lock is released; after an end, or after a begin that failed,
neither a begin nor an end may follow. -/
def tx_step (s : TxState) (e : Event) : Option TxState :=
  match e with
  | Event.glock_nq gh error =>
    match s with
    | TxState.unlocked =>
      if error = 0 then
        (if gh.gh_state = LmState.LM_ST_EXCLUSIVE then some (TxState.locked gh) else none)
      else some TxState.unlocked
    | _ => none
  | Event.glock_dq gh1 =>
    match s with
    | TxState.locked gh => if gh1 = gh then some TxState.unlocked else none
    | TxState.ended gh => if gh1 = gh then some TxState.unlocked else none
    | TxState.failed gh => if gh1 = gh then some TxState.unlocked else none
    | _ => none
  | Event.trans_begin _ _ error =>
    match s with
    | TxState.locked gh =>
      if error = 0 then some (TxState.in_trans gh) else some (TxState.failed gh)
    | _ => none
  | Event.trans_end =>
    match s with
    | TxState.in_trans gh => some (TxState.ended gh)
    | _ => none
  | _ => some s

/-- The transaction audit of a stretch of the log, started in state `s`. -/
def tx_run (s : TxState) : List Event → Option TxState
  | [] => some s
  | e :: evs =>
    match tx_step s e with
    | none => none
    | some s1 => tx_run s1 evs

/-- The transaction discipline: the log passes the audit and ends unlocked. -/
def TxDiscipline (evs : List Event) : Prop :=
  tx_run TxState.unlocked evs = some TxState.unlocked

instance (evs : List Event) : Decidable (TxDiscipline evs) :=
  inferInstanceAs (Decidable (tx_run TxState.unlocked evs = some TxState.unlocked))

/-- The holder `gi_set_file_flag` takes on `ip`. -/
def set_file_flag_gh (ip : Ino) : gfs2_holder :=
  ⟨Glock.inode ip, LmState.LM_ST_EXCLUSIVE, LmFlags.zero⟩

/-- The holder `gi_get_file_stat` takes on `ip`. -/
def get_file_stat_gh (ip : Ino) : gfs2_holder :=
  ⟨Glock.inode ip, LmState.LM_ST_SHARED, LmFlags.LM_FLAG_ANY⟩

/-- The holder `gi_do_hfile_write` takes on `ip`. -/
def hfile_write_gh (ip : Ino) : gfs2_holder :=
  ⟨Glock.inode ip, LmState.LM_ST_EXCLUSIVE, LmFlags.LM_FLAG_PRIORITY⟩

/-- The argument count each handler compares `gi_argc` with. -/
def Cmd.argc : Cmd → Nat
  | Cmd.get_super => 1
  | Cmd.get_file_stat => 1
  | Cmd.set_file_flag => 3
  | Cmd.get_bmap => 1
  | Cmd.get_file_meta => 1
  | Cmd.do_file_flush => 1
  | Cmd.get_hfile_stat => 2
  | Cmd.do_hfile_read => 2
  | Cmd.do_hfile_write => 2
  | Cmd.do_hfile_trunc => 2
  | Cmd.do_quota_sync => 1
  | Cmd.do_quota_refresh => 2
  | Cmd.do_quota_read => 2
  | Cmd.resize_add_rgrps => 1
  | Cmd.rename2system => 3

/-- The commands whose handler starts with `if (!capable(CAP_SYS_ADMIN))
return -EACCES;`, before it looks at the request. -/
def Cmd.admin_first : Cmd → Bool
  | Cmd.do_hfile_read => true
  | Cmd.do_hfile_write => true
  | Cmd.do_hfile_trunc => true
  | Cmd.do_quota_sync => true
  | Cmd.do_quota_refresh => true
  | Cmd.resize_add_rgrps => true
  | Cmd.rename2system => true
  | _ => false

/-- The data-buffer size a handler insists on, for the handlers that compare
`gi_size` with a fixed size. -/
def Cmd.fixed_size (env : Env) : Cmd → Option Nat
  | Cmd.get_super => some env.sizeof_gfs2_sb
  | Cmd.get_file_stat => some env.sizeof_gfs2_dinode
  | Cmd.get_hfile_stat => some env.sizeof_gfs2_dinode
  | Cmd.get_bmap => some 8
  | Cmd.do_quota_read => some env.sizeof_gfs2_quota
  | _ => none

/-- The block counts passed to `gfs2_trans_begin` in a stretch of the log. -/
def begins (evs : List Event) : List Nat :=
  evs.filterMap (fun e => match e with
    | Event.trans_begin blocks _ _ => some blocks
    | _ => none)

/-- The steps of the allocation reservation in a stretch of the log. -/
def alloc_events (evs : List Event) : List Event :=
  evs.filter (fun e => match e with
    | Event.alloc_get _ => true
    | Event.inplace_reserve _ _ _ => true
    | Event.inplace_release _ => true
    | Event.alloc_put _ => true
    | _ => false)

/-- The value `gi_do_hfile_write` stores in `al->al_requested` for `ip`. -/
def hfile_write_requested (env : Env) (gi : gfs2_ioctl) (ip : Ino) : Nat :=
  ((env.gfs2_write_calc_reserv ip gi.gi_size).1 + (env.gfs2_write_calc_reserv ip gi.gi_size).2)
    % U32

/-- The block count `gi_do_hfile_write` passes to `gfs2_trans_begin` when
allocation is required. -/
def hfile_write_blocks (env : Env) (gi : gfs2_ioctl) (ip : Ino) : Nat :=
  (env.ri_length ip + (env.gfs2_write_calc_reserv ip gi.gi_size).1 +
    (env.gfs2_write_calc_reserv ip gi.gi_size).2 + env.RES_DINODE + env.RES_STATFS) % U32

/-- The holder `gi_get_bmap` takes on `ip`. -/
def get_bmap_gh (ip : Ino) : gfs2_holder :=
  ⟨Glock.inode ip, LmState.LM_ST_SHARED, LmFlags.LM_FLAG_ANY⟩

/-- The calls to the quota engine (`gfs2_quota_refresh`, `gfs2_quota_read`)
in a stretch of the log, each as its `(user, id)` arguments. -/
def quota_calls (evs : List Event) : List (Nat × Nat) :=
  evs.filterMap (fun e => match e with
    | Event.quota_refresh user id => some (user, id)
    | Event.quota_read user id => some (user, id)
    | _ => none)

/-- The decimal numeral of `n`, most significant digit first. -/
def decimal (n : Nat) : List Char :=
  if n = 0 then ['0'] else (Nat.digits 10 n).reverse.map (fun d => Char.ofNat (48 + d))

/-- The number a string of decimal digits stands for. -/
def decimal_value (ds : List Char) : Nat :=
  Nat.ofDigits 10 (ds.reverse.map (fun c => c.toNat - 48))

/-- The flag bit each of the six flag names of `set_file_flag` stands for. -/
def named_flag (env : Env) (name : List Char) : Option Nat :=
  if name = "jdata".toList then some env.GFS2_DIF_JDATA
  else if name = "directio".toList then some env.GFS2_DIF_DIRECTIO
  else if name = "immutable".toList then some env.GFS2_DIF_IMMUTABLE
  else if name = "appendonly".toList then some env.GFS2_DIF_APPENDONLY
  else if name = "inherit_jdata".toList then some env.GFS2_DIF_INHERIT_JDATA
  else if name = "inherit_directio".toList then some env.GFS2_DIF_INHERIT_DIRECTIO
  else none

/-- The log of a successful `gi_set_file_flag` on `ip` that leaves the record `di`. -/
def set_file_flag_success_log (env : Env) (ip : Ino) (di : gfs2_dinode) : List Event :=
  [Event.glock_nq (set_file_flag_gh ip) 0,
    Event.trans_begin env.RES_DINODE 0 0,
    Event.meta_inode_buffer ip 0,
    Event.trans_add_bh (Glock.inode ip),
    Event.dinode_out ip di,
    Event.brelse,
    Event.trans_end,
    Event.glock_dq (set_file_flag_gh ip)]

/-- The conditions under which `gi_set_file_flag` reaches the assignment of
`flag`: three arguments, "set" or "clear", the lock granted, the caller allowed,
the flag selected, the transaction begun and the inode buffer read. -/
def set_file_flag_passes (env : Env) (ip : Ino) (gi : gfs2_ioctl) (di : gfs2_dinode)
    (s1 s2 : List Char) (flag : Nat) : Prop :=
  gi.gi_argc = 3 ∧ gi.gi_argv 1 = some s1 ∧ gi.gi_argv 2 = some s2 ∧
    (s1 = "set".toList ∨ s1 = "clear".toList) ∧
    env.gfs2_glock_nq (set_file_flag_gh ip) = 0 ∧
    (di.di_uid = env.fsuid ∨ env.capable Cap.CAP_FOWNER = true) ∧
    set_file_flag_select env di (terminate (List.take ARG_SIZE s2)) = Except.ok flag ∧
    env.gfs2_trans_begin env.RES_DINODE 0 = 0 ∧
    env.gfs2_meta_inode_buffer ip = 0

/-- In the words of the specification: `v` is the least multiple of 8 not below `x`. -/
def least_multiple_of_8 (x v : Nat) : Prop :=
  8 ∣ v ∧ x ≤ v ∧ ∀ m, 8 ∣ m → x ≤ m → v ≤ m

/-- In the words of the specification: `n` is the ceiling of `x` divided by `y`, the least
number of blocks of `y` bytes that hold `x` bytes. -/
def ceiling_of (x y n : Nat) : Prop :=
  x ≤ n * y ∧ ∀ m, x ≤ m * y → n ≤ m

/-- In the words of the specification: the payload of a record, its data when it is stuffed
and its 8-byte block pointers when it is not. -/
def ea_payload (ea : gfs2_ea_header) : Nat :=
  if ea.ea_num_ptrs = 0 then ea.ea_data_len else 8 * ea.ea_num_ptrs

/-! ## Example inputs -/

/-- An empty regular file owned by user 0. -/
def di_empty : gfs2_dinode :=
  ⟨0o100644, 0, 0, 1, 0, 0, 0, 0, 0⟩

/-- A regular file of 4096 bytes owned by user 0. -/
def di_data : gfs2_dinode :=
  ⟨0o100644, 0, 0, 1, 4096, 1, 0, 1, 0⟩

/-- A regular file with the journaled-data flag, owned by user 0. -/
def di_jdata : gfs2_dinode :=
  ⟨0o100600, 0, 0, 1, 4096, 1, 1, 1, 0⟩

/-- A directory owned by user 0. -/
def di_dir : gfs2_dinode :=
  ⟨0o040755, 0, 0, 2, 0, 1, 0, 0, 0⟩

/-- A state with an empty log in which every inode is `di`. -/
def st_of (di : gfs2_dinode) : State :=
  ⟨[], fun _ => di⟩

/-- A request with the given argument count, argument strings and buffer size. -/
def req (argc : Nat) (args : List String) (size : Nat) : gfs2_ioctl :=
  ⟨argc, fun i => (args.get? i).map String.toList, 0, size, 0⟩

/-- A request in the caller's memory whose argument vector is readable. -/
def ureq (argc : Nat) (args : List String) (size : Nat) : gfs2_ioctl_user :=
  ⟨argc, some (fun i => (args.get? i).map String.toList), 0, size, 0⟩

/-- A `get_hfile_stat` request (two arguments, empty buffer) whose name
argument `argv[1]` cannot be read. -/
def req_bad_name : gfs2_ioctl :=
  ⟨2, fun i => if i = 0 then some "get_hfile_stat".toList else none, 0, 0, 0⟩

/-- The request `req_bad_name` in the caller's memory. -/
def ureq_bad_name : gfs2_ioctl_user :=
  ⟨2, some (fun i => if i = 0 then some "get_hfile_stat".toList else none), 0, 0, 0⟩

/-- An environment in which every collaborator succeeds; the caller is user 0
and holds every capability.  A write needs one data block and one indirect
block, allocation is required, and the reserved resource group has a bitmap
of 3 blocks. -/
def env_root : Env where
  sizeof_gfs2_sb := 208
  sizeof_gfs2_dinode := 232
  sizeof_gfs2_quota := 88
  sizeof_gfs2_rindex := 96
  RES_DINODE := 1
  RES_STATFS := 1
  GFS2_DIF_JDATA := 0x1
  GFS2_DIF_EXHASH := 0x2
  GFS2_DIF_DIRECTIO := 0x10
  GFS2_DIF_IMMUTABLE := 0x20
  GFS2_DIF_APPENDONLY := 0x40
  GFS2_DIF_INHERIT_DIRECTIO := 0x08000000
  GFS2_DIF_INHERIT_JDATA := 0x80000000
  gfs2_is_stuffed := fun di => decide (di.di_height = 0)
  gfs2_is_jdata := fun di => decide (di.di_flags &&& 0x1 ≠ 0)
  fsuid := 0
  capable := fun _ => true
  sd_jindex := 1
  sd_rindex := 2
  sd_quota_inode := 3
  sd_root_dir := 4
  sd_master_dir := 5
  kmalloc_ok := true
  kcalloc_ok := true
  copy_to_user_ok := fun _ _ => true
  copy_from_user_u64 := fun _ => some 0
  access_ok := fun _ _ => true
  gfs2_glock_nq := fun _ => 0
  gfs2_meta_read := fun _ => 0
  gfs2_trans_begin := fun _ _ => 0
  gfs2_meta_inode_buffer := fun _ => 0
  gfs2_block_map := fun _ _ _ => (0, none)
  gfs2_get_file_meta := fun _ n => (0, n)
  gfs2_get_dir_meta := fun _ n => (0, n)
  gfs2_get_eattr_meta := fun _ n => (0, n)
  gfs2_jdata_read := fun _ _ _ size => size
  gfs2_jdata_write := fun _ _ _ size => size
  gfs2_truncatei := fun _ _ => 0
  gfs2_write_calc_reserv := fun _ _ => (1, 1)
  gfs2_write_alloc_required := fun _ _ _ => (0, 1)
  gfs2_inplace_reserve := fun _ _ => 0
  ri_length := fun _ => 3
  gfs2_quota_sync := 0
  gfs2_quota_refresh := fun _ _ => 0
  gfs2_quota_read := fun _ _ => (0, ⟨0, 0, 0⟩)
  gfs2_resize_add_rgrps := fun _ _ => 0
  gfs2_lookup_simple := fun _ _ => Except.ok 6
  gfs2_rename2system := fun _ _ _ _ _ => 0

/-- The environment `env_root` for a caller who is user 1000 and holds no capability. -/
def env_user : Env :=
  { env_root with fsuid := 1000, capable := fun _ => false }

/-- The environment `env_root` for the owner of the files (user 0) without any capability. -/
def env_owner : Env :=
  { env_root with capable := fun _ => false }

/-- The environment `env_root` when no allocation is required for the write. -/
def env_noalloc : Env :=
  { env_root with gfs2_write_alloc_required := fun _ _ _ => (0, 0) }

/-- A request with an empty name and no data. -/
def er_empty : gfs2_ea_request :=
  ⟨0, 0, 1, 0, 0⟩

/-- A request with a name of 4 bytes and 5000 bytes of data. -/
def er_large : gfs2_ea_request :=
  ⟨4, 5000, 1, 0, 0⟩

/-- A stuffed record with an empty name and 8 bytes of data. -/
def ea_eight : gfs2_ea_header :=
  ⟨24, 8, 0, 1, 0, 0⟩

/-- An unstuffed record with a name of 4 bytes and 2 pointers to 5000 bytes of data. -/
def ea_large : gfs2_ea_header :=
  ⟨40, 5000, 4, 1, 0, 2⟩

theorem take_eq_iff_of_short (n : Nat) (s l : List Char) (h : l.length < n) :
    s.take n = l ↔ s = l := by
  constructor
  · intro e
    have hl : (s.take n).length = l.length := by rw [e]
    rw [List.length_take] at hl
    have hs : s.length ≤ n := by omega
    rw [List.take_of_length_le hs] at e
    exact e
  · intro e
    subst e
    exact List.take_of_length_le (by omega)

theorem streq_arg (s : List Char) (lit : String) (h : lit.toList.length < 31) :
    streq (terminate (List.take ARG_SIZE s)) lit = decide (s = lit.toList) := by
  have e : terminate (List.take ARG_SIZE s) = s.take 31 := by
    simp [terminate, ARG_SIZE, List.take_take]
  rw [streq, e]
  exact decide_eq_decide.mpr (take_eq_iff_of_short 31 s _ h)

theorem of_piece (st st1 : State) (r : Int × State) (P Q : List Event → Prop)
    (h : ∃ evs, r.2.log = st1.log ++ evs ∧ P evs)
    (hst : ∃ pre, st1.log = st.log ++ pre ∧ ∀ evs, P evs → Q (pre ++ evs)) :
    ∃ evs, r.2.log = st.log ++ evs ∧ Q evs := by
  obtain ⟨evs, hl, hp⟩ := h
  obtain ⟨pre, hpre, hq⟩ := hst
  exact ⟨pre ++ evs, by rw [hl, hpre, List.append_assoc], hq evs hp⟩

theorem set_file_flag_locked_log (env : Env) (ip : Ino) (set : Bool) (buf : List Char)
    (gh : gfs2_holder) (st : State) :
    ∃ evs, (set_file_flag_locked env ip set buf gh st).2.log = st.log ++ evs ∧ (calls evs = [] ∧
      lock_run [gh] evs = some [] ∧ tx_run (TxState.locked gh) evs = some TxState.unlocked) := by
  simp only [set_file_flag_locked, set_file_flag_out_trans_end, set_file_flag_out]
  cases set_file_flag_select env (st.inodes ip) buf <;>
    simp only [] <;> split_ifs <;>
    simp_all [emit, calls, lock_run, lock_step, tx_run, tx_step]

theorem get_file_meta_eattr_log (env : Env) (ip : Ino) (gh : gfs2_holder) (n : Nat) (st : State) :
    ∃ evs, (get_file_meta_eattr env ip gh n st).2.log = st.log ++ evs ∧ (calls evs = [] ∧
      lock_run [gh] evs = some []) := by
  simp only [get_file_meta_eattr, get_file_meta_out]
  split_ifs <;> simp_all [emit, calls, lock_run, lock_step]

theorem rename2system_move_log (env : Env) (old_dip ip : Ino) (new_dir new_name : List Char)
    (st : State) :
    ∃ evs, (rename2system_move env old_dip ip new_dir new_name st).2.log = st.log ++ evs ∧
      (calls evs = [] ∧ lock_run [] evs = some []) := by
  simp only [rename2system_move, rename2system_out2, rename2system_out]
  cases env.gfs2_lookup_simple env.sd_master_dir "per_node".toList <;>
    simp only [] <;> split_ifs <;> simp_all [emit, calls, lock_run, lock_step]

theorem hfile_write_locked_log (env : Env) (gi : gfs2_ioctl) (ip : Ino) (gh : gfs2_holder)
    (d i : Nat) (st : State) :
    ∃ evs, (hfile_write_locked env gi ip gh d i st).2.log = st.log ++ evs ∧ (calls evs = [] ∧
      lock_run [gh] evs = some [] ∧ tx_run (TxState.locked gh) evs = some TxState.unlocked) := by
  simp only [hfile_write_locked, hfile_write_data, hfile_write_out_relse, hfile_write_out_alloc,
    hfile_write_out]
  split_ifs <;> simp_all [emit, calls, lock_run, lock_step, tx_run, tx_step]

theorem gi_get_super_log (env : Env) (gi : gfs2_ioctl) (st : State) :
    ∃ evs, (gi_get_super env gi st).2.log = st.log ++ evs ∧ (calls evs = [] ∧
      lock_run [] evs = some []) := by
  simp only [gi_get_super]
  split_ifs <;> simp_all [emit, calls, lock_run, lock_step]

theorem gi_get_file_stat_log (env : Env) (ip : Ino) (gi : gfs2_ioctl) (st : State) :
    ∃ evs, (gi_get_file_stat env ip gi st).2.log = st.log ++ evs ∧ (calls evs = [] ∧
      lock_run [] evs = some []) := by
  simp only [gi_get_file_stat]
  split_ifs <;> simp_all [emit, calls, lock_run, lock_step]

theorem gi_set_file_flag_log (env : Env) (ip : Ino) (gi : gfs2_ioctl) (st : State) :
    ∃ evs, (gi_set_file_flag env ip gi st).2.log = st.log ++ evs ∧ (calls evs = [] ∧
      lock_run [] evs = some [] ∧ tx_run TxState.unlocked evs = some TxState.unlocked) := by
  simp only [gi_set_file_flag]
  cases strncpy_from_user (gi.gi_argv 1) ARG_SIZE <;>
    cases strncpy_from_user (gi.gi_argv 2) ARG_SIZE <;>
    simp only [] <;> split_ifs <;>
    first
    | (simp_all [emit, calls, lock_run, lock_step, tx_run, tx_step]; done)
    | (refine of_piece st _ _ _ _ (set_file_flag_locked_log _ _ _ _ _ _) ?_
       simp_all [emit, calls, lock_run, lock_step, tx_run, tx_step])

theorem gi_get_bmap_log (env : Env) (ip : Ino) (gi : gfs2_ioctl) (st : State) :
    ∃ evs, (gi_get_bmap env ip gi st).2.log = st.log ++ evs ∧ (calls evs = [] ∧
      lock_run [] evs = some []) := by
  simp only [gi_get_bmap]
  cases env.copy_from_user_u64 gi.gi_data <;>
    simp only [] <;> split_ifs <;> simp_all [emit, calls, lock_run, lock_step]

theorem gi_get_file_meta_log (env : Env) (ip : Ino) (gi : gfs2_ioctl) (st : State) :
    ∃ evs, (gi_get_file_meta env ip gi st).2.log = st.log ++ evs ∧ (calls evs = [] ∧
      lock_run [] evs = some []) := by
  simp only [gi_get_file_meta, get_file_meta_out]
  split_ifs <;>
    first
    | (simp_all [emit, calls, lock_run, lock_step]; done)
    | (refine of_piece st _ _ _ _ (get_file_meta_eattr_log _ _ _ _ _) ?_
       simp_all [emit, calls, lock_run, lock_step])

theorem gi_do_file_flush_log (env : Env) (ip : Ino) (gi : gfs2_ioctl) (st : State) :
    ∃ evs, (gi_do_file_flush env ip gi st).2.log = st.log ++ evs ∧ (calls evs = [] ∧
      lock_run [] evs = some []) := by
  simp only [gi_do_file_flush]
  split_ifs <;> simp_all [emit, calls, lock_run, lock_step]

theorem gi_get_hfile_stat_log (env : Env) (gi : gfs2_ioctl) (st : State) :
    ∃ evs, (gi_get_hfile_stat env gi st).2.log = st.log ++ evs ∧ (calls evs = [] ∧
      lock_run [] evs = some []) := by
  simp only [gi_get_hfile_stat]
  cases gi2hip env gi <;> simp only [] <;> (try split_ifs) <;>
    simp_all [emit, calls, lock_run, lock_step]

theorem gi_do_hfile_read_log (env : Env) (gi : gfs2_ioctl) (st : State) :
    ∃ evs, (gi_do_hfile_read env gi st).2.log = st.log ++ evs ∧ (calls evs = [] ∧
      lock_run [] evs = some []) := by
  simp only [gi_do_hfile_read]
  cases gi2hip env gi <;> simp only [] <;> split_ifs <;>
    simp_all [emit, calls, lock_run, lock_step]

theorem gi_do_hfile_write_log (env : Env) (gi : gfs2_ioctl) (st : State) :
    ∃ evs, (gi_do_hfile_write env gi st).2.log = st.log ++ evs ∧ (calls evs = [] ∧
      lock_run [] evs = some [] ∧ tx_run TxState.unlocked evs = some TxState.unlocked) := by
  simp only [gi_do_hfile_write]
  cases gi2hip env gi <;> simp only [] <;> split_ifs <;>
    first
    | (simp_all [emit, calls, lock_run, lock_step, tx_run, tx_step]; done)
    | (refine of_piece st _ _ _ _ (hfile_write_locked_log _ _ _ _ _ _ _) ?_
       simp_all [emit, calls, lock_run, lock_step, tx_run, tx_step])

theorem gi_do_hfile_trunc_log (env : Env) (gi : gfs2_ioctl) (st : State) :
    ∃ evs, (gi_do_hfile_trunc env gi st).2.log = st.log ++ evs ∧ (calls evs = [] ∧
      lock_run [] evs = some []) := by
  simp only [gi_do_hfile_trunc]
  cases gi2hip env gi <;> simp only [] <;> split_ifs <;>
    simp_all [emit, calls, lock_run, lock_step]

theorem gi_do_quota_sync_log (env : Env) (gi : gfs2_ioctl) (st : State) :
    ∃ evs, (gi_do_quota_sync env gi st).2.log = st.log ++ evs ∧ (calls evs = [] ∧
      lock_run [] evs = some []) := by
  simp only [gi_do_quota_sync]
  split_ifs <;> simp_all [emit, calls, lock_run, lock_step]

theorem gi_do_quota_refresh_log (env : Env) (gi : gfs2_ioctl) (st : State) :
    ∃ evs, (gi_do_quota_refresh env gi st).2.log = st.log ++ evs ∧ (calls evs = [] ∧
      lock_run [] evs = some []) := by
  simp only [gi_do_quota_refresh]
  rcases strncpy_from_user (gi.gi_argv 1) ARG_SIZE with _ | b
  · simp only []
    split_ifs <;> simp_all [emit, calls, lock_run, lock_step]
  · simp only []
    rcases quota_arg (terminate b) with _ | ⟨user, id⟩ <;> simp only [] <;> split_ifs <;>
      simp_all [emit, calls, lock_run, lock_step]

theorem gi_do_quota_read_log (env : Env) (gi : gfs2_ioctl) (st : State) :
    ∃ evs, (gi_do_quota_read env gi st).2.log = st.log ++ evs ∧ (calls evs = [] ∧
      lock_run [] evs = some []) := by
  simp only [gi_do_quota_read]
  rcases strncpy_from_user (gi.gi_argv 1) ARG_SIZE with _ | b
  · simp only []
    split_ifs <;> simp_all [emit, calls, lock_run, lock_step]
  · simp only []
    rcases quota_arg (terminate b) with _ | ⟨user, id⟩ <;> simp only [] <;> split_ifs <;>
      simp_all [emit, calls, lock_run, lock_step]

theorem gi_resize_add_rgrps_log (env : Env) (gi : gfs2_ioctl) (st : State) :
    ∃ evs, (gi_resize_add_rgrps env gi st).2.log = st.log ++ evs ∧ (calls evs = [] ∧
      lock_run [] evs = some []) := by
  simp only [gi_resize_add_rgrps]
  split_ifs <;> simp_all [emit, calls, lock_run, lock_step]

theorem gi_rename2system_log (env : Env) (gi : gfs2_ioctl) (st : State) :
    ∃ evs, (gi_rename2system env gi st).2.log = st.log ++ evs ∧ (calls evs = [] ∧
      lock_run [] evs = some []) := by
  simp only [gi_rename2system, rename2system_out]
  cases strncpy_from_user (gi.gi_argv 1) ARG_SIZE <;>
    cases strncpy_from_user (gi.gi_argv 2) ARG_SIZE <;>
    rcases env.gfs2_lookup_simple env.sd_root_dir ".gfs2_admin".toList with e | old_dip <;>
    simp only [] <;> (try split_ifs) <;>
    first
    | (simp_all [emit, calls, lock_run, lock_step]; done)
    | (rcases env.gfs2_lookup_simple old_dip "new_inode".toList with e | ip <;> simp only [] <;>
       first
       | (simp_all [emit, calls, lock_run, lock_step]; done)
       | (refine of_piece st _ _ _ _ (rename2system_move_log _ _ _ _ _ _) ?_
          simp_all [emit, calls, lock_run, lock_step]))

/-- Every handler only appends to the log, invokes no other handler, and
passes the lock audit. -/
theorem handler_audit (env : Env) (ip : Ino) (c : Cmd) (gi : gfs2_ioctl) (st : State) :
    ∃ evs, (c.handler env ip gi st).2.log = st.log ++ evs ∧ (calls evs = [] ∧
      lock_run [] evs = some []) := by
  cases c
  · exact gi_get_super_log env gi st
  · exact gi_get_file_stat_log env ip gi st
  · obtain ⟨evs, h1, h2, h3, _⟩ := gi_set_file_flag_log env ip gi st
    exact ⟨evs, h1, h2, h3⟩
  · exact gi_get_bmap_log env ip gi st
  · exact gi_get_file_meta_log env ip gi st
  · exact gi_do_file_flush_log env ip gi st
  · exact gi_get_hfile_stat_log env gi st
  · exact gi_do_hfile_read_log env gi st
  · obtain ⟨evs, h1, h2, h3, _⟩ := gi_do_hfile_write_log env gi st
    exact ⟨evs, h1, h2, h3⟩
  · exact gi_do_hfile_trunc_log env gi st
  · exact gi_do_quota_sync_log env gi st
  · exact gi_do_quota_refresh_log env gi st
  · exact gi_do_quota_read_log env gi st
  · exact gi_resize_add_rgrps_log env gi st
  · exact gi_rename2system_log env gi st

theorem dispatch_known (env : Env) (ip : Ino) (u : gfs2_ioctl_user)
    (argv : Nat → Option (List Char)) (st : State) (c : Cmd)
    (hargc : 1 ≤ u.gi_argc) (hk : env.kcalloc_ok = true) (hv : u.gi_argv = some argv)
    (h0 : argv 0 = some c.name.toList) :
    gfs2_ioctl_i env ip (some u) st =
      c.handler env ip ⟨u.gi_argc, argv, u.gi_data, u.gi_size, u.gi_offset⟩
        (emit (Event.call c) st) := by
  have hz : u.gi_argc ≠ 0 := by omega
  cases c <;>
    simp [gfs2_ioctl_i, hz, hk, hv, h0, strncpy_from_user, terminate, ARG_SIZE, streq,
      Cmd.name, Cmd.handler]

theorem dispatch_unknown (env : Env) (ip : Ino) (u : gfs2_ioctl_user)
    (argv : Nat → Option (List Char)) (s : List Char) (st : State)
    (hargc : 1 ≤ u.gi_argc) (hk : env.kcalloc_ok = true) (hv : u.gi_argv = some argv)
    (h0 : argv 0 = some s) (hs : ∀ c : Cmd, s ≠ c.name.toList) :
    gfs2_ioctl_i env ip (some u) st = (-ENOTTY, st) := by
  have hz : u.gi_argc ≠ 0 := by omega
  have h1 := hs Cmd.get_super
  have h2 := hs Cmd.get_file_stat
  have h3 := hs Cmd.set_file_flag
  have h4 := hs Cmd.get_bmap
  have h5 := hs Cmd.get_file_meta
  have h6 := hs Cmd.do_file_flush
  have h7 := hs Cmd.get_hfile_stat
  have h8 := hs Cmd.do_hfile_read
  have h9 := hs Cmd.do_hfile_write
  have h10 := hs Cmd.do_hfile_trunc
  have h11 := hs Cmd.do_quota_sync
  have h12 := hs Cmd.do_quota_refresh
  have h13 := hs Cmd.do_quota_read
  have h14 := hs Cmd.resize_add_rgrps
  have h15 := hs Cmd.rename2system
  simp only [Cmd.name] at h1 h2 h3 h4 h5 h6 h7 h8 h9 h10 h11 h12 h13 h14 h15
  simp only [gfs2_ioctl_i, hz, hk, hv, h0, strncpy_from_user, Option.map,
    streq_arg s _ (show ("get_super").toList.length < 31 by decide),
    streq_arg s _ (show ("get_file_stat").toList.length < 31 by decide),
    streq_arg s _ (show ("set_file_flag").toList.length < 31 by decide),
    streq_arg s _ (show ("get_bmap").toList.length < 31 by decide),
    streq_arg s _ (show ("get_file_meta").toList.length < 31 by decide),
    streq_arg s _ (show ("do_file_flush").toList.length < 31 by decide),
    streq_arg s _ (show ("get_hfile_stat").toList.length < 31 by decide),
    streq_arg s _ (show ("do_hfile_read").toList.length < 31 by decide),
    streq_arg s _ (show ("do_hfile_write").toList.length < 31 by decide),
    streq_arg s _ (show ("do_hfile_trunc").toList.length < 31 by decide),
    streq_arg s _ (show ("do_quota_sync").toList.length < 31 by decide),
    streq_arg s _ (show ("do_quota_refresh").toList.length < 31 by decide),
    streq_arg s _ (show ("do_quota_read").toList.length < 31 by decide),
    streq_arg s _ (show ("resize_add_rgrps").toList.length < 31 by decide),
    streq_arg s _ (show ("rename2system").toList.length < 31 by decide)]
  simp only [h1, h2, h3, h4, h5, h6, h7, h8, h9, h10, h11, h12, h13, h14, h15,
    decide_eq_true_eq, if_false]
  simp

theorem arg_short (s : List Char) (h : s.length < 31) :
    terminate (List.take ARG_SIZE s) = s := by
  simp only [terminate, ARG_SIZE, List.take_take]
  exact List.take_of_length_le (by simp; omega)

/-- The lock audit rejects a log in which a granted holder is never released. -/
theorem lock_audit_rejects_leak :
    ¬ LockDiscipline [Event.glock_nq (set_file_flag_gh 0) 0, Event.trans_end] := by
  decide

/-- The lock audit rejects a release of a holder that is not held, and a second release. -/
theorem lock_audit_rejects_stray_release :
    ¬ LockDiscipline [Event.glock_dq (set_file_flag_gh 0)] ∧
    ¬ LockDiscipline [Event.glock_nq (set_file_flag_gh 0) 0, Event.glock_dq (set_file_flag_gh 0),
      Event.glock_dq (set_file_flag_gh 0)] ∧
    ¬ LockDiscipline [Event.glock_nq (set_file_flag_gh 0) (-5), Event.glock_dq (set_file_flag_gh 0)] := by
  decide

/-- The transaction audit rejects a begin without an end, an end without a
begin, an end after a failed begin, a second end, and a transaction outside
the lock or under a shared lock. -/
theorem tx_audit_rejects :
    ¬ TxDiscipline [Event.glock_nq (set_file_flag_gh 0) 0, Event.trans_begin 1 0 0,
      Event.glock_dq (set_file_flag_gh 0)] ∧
    ¬ TxDiscipline [Event.glock_nq (set_file_flag_gh 0) 0, Event.trans_end,
      Event.glock_dq (set_file_flag_gh 0)] ∧
    ¬ TxDiscipline [Event.glock_nq (set_file_flag_gh 0) 0, Event.trans_begin 1 0 (-5),
      Event.trans_end, Event.glock_dq (set_file_flag_gh 0)] ∧
    ¬ TxDiscipline [Event.glock_nq (set_file_flag_gh 0) 0, Event.trans_begin 1 0 0,
      Event.trans_end, Event.trans_end, Event.glock_dq (set_file_flag_gh 0)] ∧
    ¬ TxDiscipline [Event.trans_begin 1 0 0, Event.trans_end] ∧
    ¬ TxDiscipline [Event.glock_nq (set_file_flag_gh 0) 0, Event.glock_dq (set_file_flag_gh 0),
      Event.trans_begin 1 0 0, Event.trans_end] ∧
    ¬ TxDiscipline [Event.glock_nq (get_file_stat_gh 0) 0, Event.trans_begin 1 0 0,
      Event.trans_end, Event.glock_dq (get_file_stat_gh 0)] := by
  decide

theorem terminate_take (s : List Char) : terminate (List.take ARG_SIZE s) = s.take 31 := by
  simp [terminate, ARG_SIZE, List.take_take]

theorem strtoul_value (ds : List Char) :
    ds.foldl (fun acc c => acc * 10 + (c.toNat - 48)) 0 = decimal_value ds := by
  simp only [decimal_value, Nat.ofDigits_eq_foldr, List.foldr_map, List.foldr_reverse,
    Nat.cast_id]
  congr 1
  funext acc c
  omega

theorem takeWhile_append_stop {α : Type} (p : α → Bool) (ds rest : List α)
    (hall : ∀ c ∈ ds, p c = true) (hrest : ∀ c, rest.head? = some c → p c = false) :
    (ds ++ rest).takeWhile p = ds := by
  induction ds with
  | nil =>
    cases rest with
    | nil => rfl
    | cons c r => simp [List.takeWhile, hrest c rfl]
  | cons d ds ih =>
    have hd : p d = true := hall d (List.mem_cons_self _ _)
    simp only [List.cons_append, List.takeWhile_cons, hd, if_true]
    rw [ih (fun c hc => hall c (List.mem_cons_of_mem _ hc))]

theorem digit_not_space (c : Char) (h : isdigit c = true) : isspace c = false := by
  simp only [isdigit, Bool.and_eq_true, decide_eq_true_eq] at h
  simp only [isspace, Bool.or_eq_false_iff, Bool.and_eq_false_iff, decide_eq_false_iff_not]
  omega

theorem sscanf_u_eq_none_iff (t : List Char) :
    sscanf_u t = none ↔ ∀ c, (t.dropWhile isspace).head? = some c → isdigit c = false := by
  unfold sscanf_u
  cases h : t.dropWhile isspace with
  | nil => simp
  | cons c r =>
    cases hc : isdigit c <;> simp [hc]

theorem sscanf_u_some (t : List Char) (c : Char)
    (hc : (t.dropWhile isspace).head? = some c) (hd : isdigit c = true) :
    sscanf_u t = some (simple_strtoul (t.dropWhile isspace) % U32) := by
  unfold sscanf_u
  cases h : t.dropWhile isspace with
  | nil => simp [h] at hc
  | cons c1 r =>
    simp [h] at hc
    subst hc
    simp [hd]

theorem sscanf_u_digits (ds rest : List Char) (hne : ds ≠ [])
    (hall : ∀ c ∈ ds, isdigit c = true)
    (hrest : ∀ c, rest.head? = some c → isdigit c = false) :
    sscanf_u (ds ++ rest) = some (decimal_value ds % U32) := by
  cases ds with
  | nil => exact absurd rfl hne
  | cons d ds1 =>
    have hd : isdigit d = true := hall d (List.mem_cons_self _ _)
    have hs : isspace d = false := digit_not_space d hd
    have hdrop : (d :: ds1 ++ rest).dropWhile isspace = d :: ds1 ++ rest := by
      simp [List.dropWhile, hs]
    rw [sscanf_u_some (d :: ds1 ++ rest) d (by rw [hdrop]; rfl) hd, hdrop]
    rw [simple_strtoul, takeWhile_append_stop isdigit (d :: ds1) rest hall hrest, strtoul_value]

theorem digit_char (d : Nat) (h : d < 10) :
    isdigit (Char.ofNat (48 + d)) = true ∧ (Char.ofNat (48 + d)).toNat - 48 = d := by
  interval_cases d <;> decide

theorem decimal_digits (n : Nat) : ∀ c ∈ decimal n, isdigit c = true := by
  intro c hc
  unfold decimal at hc
  split_ifs at hc with h0
  · simp at hc
    subst hc
    decide
  · simp only [List.mem_map, List.mem_reverse] at hc
    obtain ⟨d, hd, rfl⟩ := hc
    exact (digit_char d (Nat.digits_lt_base (by norm_num) hd)).1

theorem decimal_ne_nil (n : Nat) : decimal n ≠ [] := by
  unfold decimal
  split_ifs with h0
  · simp
  · simp [Nat.digits_ne_nil_iff_ne_zero, h0]

theorem decimal_value_decimal (n : Nat) : decimal_value (decimal n) = n := by
  unfold decimal decimal_value
  split_ifs with h0
  · subst h0
    decide
  · rw [← List.map_reverse, List.reverse_reverse, List.map_map]
    have : List.map ((fun c : Char => c.toNat - 48) ∘ fun d => Char.ofNat (48 + d))
        (Nat.digits 10 n) = Nat.digits 10 n := by
      conv_rhs => rw [← List.map_id (Nat.digits 10 n)]
      apply List.map_congr_left
      intro d hd
      exact (digit_char d (Nat.digits_lt_base (by norm_num) hd)).2
    rw [this, Nat.ofDigits_digits]

theorem decimal_length (n : Nat) (h : n < U32) : (decimal n).length ≤ 10 := by
  unfold decimal
  split_ifs with h0
  · simp
  · simp only [List.length_map, List.length_reverse]
    have h1 := Nat.base_pow_length_digits_le 10 n (by norm_num) h0
    by_contra hlen
    have h2 : 10 ^ 11 ≤ 10 ^ (Nat.digits 10 n).length :=
      Nat.pow_le_pow_right (by norm_num) (by omega)
    have h3 : n < 4294967296 := by simpa [U32] using h
    omega

theorem quota_arg_class (c : Char) (t : List Char) (hc : c = 'u' ∨ c = 'g') :
    quota_arg (c :: ':' :: t) =
      (sscanf_u t).map (fun id => (if c = 'u' then 1 else 0, id)) := by
  rcases hc with rfl | rfl <;> cases h : sscanf_u t <;> simp [quota_arg, h]

theorem quota_arg_bad (buf : List Char)
    (h : (buf.head? ≠ some 'u' ∧ buf.head? ≠ some 'g') ∨ (buf.drop 1).head? ≠ some ':') :
    quota_arg buf = none := by
  unfold quota_arg
  rcases h with ⟨h1, h2⟩ | h
  · cases buf with
    | nil => simp
    | cons c r =>
      simp only [List.head?_cons, ne_eq, Option.some.injEq] at h1 h2
      split <;> simp_all
  · simp only [h, ne_eq, not_false_eq_true, if_true]
    split <;> rfl

theorem quota_refresh_eq (env : Env) (gi : gfs2_ioctl) (st : State) (s : List Char)
    (hcap : env.capable Cap.CAP_SYS_ADMIN = true) (hargc : gi.gi_argc = 2)
    (hs : gi.gi_argv 1 = some s) :
    gi_do_quota_refresh env gi st =
      match quota_arg (s.take 31) with
      | none => (-EINVAL, st)
      | some (user, id) => (env.gfs2_quota_refresh user id, emit (Event.quota_refresh user id) st) := by
  simp only [gi_do_quota_refresh, hcap, hargc, hs, strncpy_from_user, Option.map, terminate_take]
  cases quota_arg (s.take 31) with
  | none => simp
  | some p =>
    obtain ⟨user, id⟩ := p
    simp

theorem quota_read_eq (env : Env) (gi : gfs2_ioctl) (st : State) (s : List Char)
    (hsize : gi.gi_size = env.sizeof_gfs2_quota) (hargc : gi.gi_argc = 2)
    (hs : gi.gi_argv 1 = some s) :
    gi_do_quota_read env gi st =
      match quota_arg (s.take 31) with
      | none => (-EINVAL, st)
      | some (user, id) =>
        if (env.gfs2_quota_read user id).1 ≠ 0 then
          ((env.gfs2_quota_read user id).1, emit (Event.quota_read user id) st)
        else
          (if env.copy_to_user_ok gi.gi_data env.sizeof_gfs2_quota = true then 0 else -EFAULT,
            emit (Event.copy_to_user gi.gi_data (Payload.quota (env.gfs2_quota_read user id).2)
              (env.copy_to_user_ok gi.gi_data env.sizeof_gfs2_quota))
              (emit (Event.quota_read user id) st)) := by
  simp only [gi_do_quota_read, hsize, hargc, hs, strncpy_from_user, Option.map, terminate_take]
  cases quota_arg (s.take 31) with
  | none => simp
  | some p =>
    obtain ⟨user, id⟩ := p
    simp only [ne_eq, not_true_eq_false, if_false]
    split_ifs <;> simp_all

theorem quota_refresh_calls (env : Env) (gi : gfs2_ioctl) (st : State) (s : List Char)
    (hcap : env.capable Cap.CAP_SYS_ADMIN = true) (hargc : gi.gi_argc = 2)
    (hs : gi.gi_argv 1 = some s) :
    (∃ evs, (gi_do_quota_refresh env gi st).2.log = st.log ++ evs ∧
      quota_calls evs = (quota_arg (s.take 31)).toList) ∧
    (quota_arg (s.take 31) = none → gi_do_quota_refresh env gi st = (-EINVAL, st)) ∧
    (∀ user id, quota_arg (s.take 31) = some (user, id) →
      gi_do_quota_refresh env gi st =
        (env.gfs2_quota_refresh user id, emit (Event.quota_refresh user id) st)) := by
  rw [quota_refresh_eq env gi st s hcap hargc hs]
  cases quota_arg (s.take 31) with
  | none => simp [quota_calls]
  | some p =>
    obtain ⟨user, id⟩ := p
    exact ⟨by simp [emit, quota_calls], by simp, by simp⟩

theorem quota_read_calls (env : Env) (gi : gfs2_ioctl) (st : State) (s : List Char)
    (hsize : gi.gi_size = env.sizeof_gfs2_quota) (hargc : gi.gi_argc = 2)
    (hs : gi.gi_argv 1 = some s) :
    (∃ evs, (gi_do_quota_read env gi st).2.log = st.log ++ evs ∧
      quota_calls evs = (quota_arg (s.take 31)).toList) ∧
    (quota_arg (s.take 31) = none → gi_do_quota_read env gi st = (-EINVAL, st)) := by
  rw [quota_read_eq env gi st s hsize hargc hs]
  cases quota_arg (s.take 31) with
  | none => simp [quota_calls]
  | some p =>
    obtain ⟨user, id⟩ := p
    refine ⟨?_, by simp⟩
    by_cases h1 : (env.gfs2_quota_read user id).1 = 0 <;> simp [emit, quota_calls, h1]

theorem head_take31 (s : List Char) :
    (s.take 31).head? = s.head? ∧ ((s.take 31).drop 1).head? = (s.drop 1).head? := by
  rcases s with _ | ⟨a, _ | ⟨b, r⟩⟩ <;> simp

theorem quota_arg_decimal (c : Char) (n : Nat) (hc : c = 'u' ∨ c = 'g') (hn : n < U32) :
    quota_arg ((c :: ':' :: decimal n).take 31) = some (if c = 'u' then 1 else 0, n) := by
  have hlen := decimal_length n hn
  have ht : (c :: ':' :: decimal n).take 31 = c :: ':' :: decimal n := by
    apply List.take_of_length_le
    simp only [List.length_cons]
    omega
  rw [ht, quota_arg_class c _ hc]
  have := sscanf_u_digits (decimal n) [] (decimal_ne_nil n) (decimal_digits n) (by simp)
  rw [List.append_nil] at this
  rw [this, decimal_value_decimal, Nat.mod_eq_of_lt hn]
  rfl

theorem quota_arg_id_none (c : Char) (t : List Char) (hc : c = 'u' ∨ c = 'g')
    (h : ∀ ch, ((t.take 29).dropWhile isspace).head? = some ch → isdigit ch = false) :
    quota_arg ((c :: ':' :: t).take 31) = none := by
  have ht : (c :: ':' :: t).take 31 = c :: ':' :: t.take 29 := by simp
  rw [ht, quota_arg_class c _ hc, (sscanf_u_eq_none_iff _).mpr h]
  rfl

theorem quota_arg_id_some (c : Char) (t : List Char) (hc : c = 'u' ∨ c = 'g') (ch : Char)
    (h : ((t.take 29).dropWhile isspace).head? = some ch) (hd : isdigit ch = true) :
    quota_arg ((c :: ':' :: t).take 31) =
      some (if c = 'u' then 1 else 0,
        simple_strtoul ((t.take 29).dropWhile isspace) % U32) := by
  have ht : (c :: ':' :: t).take 31 = c :: ':' :: t.take 29 := by simp
  rw [ht, quota_arg_class c _ hc, sscanf_u_some _ ch h hd]
  rfl

theorem quota_arg_id_digits (c : Char) (ds rest : List Char) (hc : c = 'u' ∨ c = 'g')
    (hne : ds ≠ []) (hall : ∀ d ∈ ds, isdigit d = true)
    (hrest : ∀ ch, rest.head? = some ch → isdigit ch = false) :
    quota_arg ((c :: ':' :: (ds ++ rest)).take 31) =
      some (if c = 'u' then 1 else 0, decimal_value (ds.take 29) % U32) := by
  have ht : (c :: ':' :: (ds ++ rest)).take 31 =
      c :: ':' :: (ds.take 29 ++ rest.take (29 - ds.length)) := by
    simp [List.take_append_eq_append_take]
  rw [ht, quota_arg_class c _ hc]
  have hne2 : ds.take 29 ≠ [] := by
    cases ds with
    | nil => exact absurd rfl hne
    | cons d r => simp
  have hrest2 : ∀ ch, (rest.take (29 - ds.length)).head? = some ch → isdigit ch = false := by
    intro ch hch
    apply hrest
    rw [List.head?_take] at hch
    split_ifs at hch
    exact hch
  rw [sscanf_u_digits _ _ hne2 (fun d hd => hall d (List.mem_of_mem_take hd)) hrest2]
  rfl

theorem get_bmap_block_map_calls (env : Env) (ip : Ino) (gi : gfs2_ioctl) (st : State) :
    ∃ evs, (gi_get_bmap env ip gi st).2.log = st.log ++ evs ∧
      ∀ i l n err, Event.block_map i l n err ∈ evs →
        n = 0 ∧ i = ip ∧ env.gfs2_is_stuffed (st.inodes ip) = false := by
  simp only [gi_get_bmap]
  cases env.copy_from_user_u64 gi.gi_data <;>
    simp only [] <;> split_ifs <;> simp_all [emit]

theorem select_error_ne_zero (env : Env) (di : gfs2_dinode) (buf : List Char) (e : Int)
    (h : set_file_flag_select env di buf = Except.error e) : e ≠ 0 := by
  unfold set_file_flag_select at h
  split_ifs at h <;> simp [EINVAL, EPERM] at h <;> omega

theorem select_named (env : Env) (di : gfs2_dinode) (s2 : List Char) (flag : Nat)
    (h : set_file_flag_select env di (terminate (List.take ARG_SIZE s2)) = Except.ok flag) :
    named_flag env s2 = some flag := by
  simp only [set_file_flag_select,
    streq_arg s2 _ (show ("jdata").toList.length < 31 by decide),
    streq_arg s2 _ (show ("directio").toList.length < 31 by decide),
    streq_arg s2 _ (show ("immutable").toList.length < 31 by decide),
    streq_arg s2 _ (show ("appendonly").toList.length < 31 by decide),
    streq_arg s2 _ (show ("inherit_jdata").toList.length < 31 by decide),
    streq_arg s2 _ (show ("inherit_directio").toList.length < 31 by decide),
    decide_eq_true_eq] at h
  unfold named_flag
  split_ifs at h ⊢ <;> simp_all

theorem select_apply_flag (env : Env) (set : Bool) (flag : Nat) (di : gfs2_dinode)
    (buf : List Char) :
    set_file_flag_select env (apply_flag set flag di) buf = set_file_flag_select env di buf := by
  cases set <;> simp [set_file_flag_select, apply_flag]

theorem set_file_flag_locked_ok (env : Env) (ip : Ino) (set : Bool) (buf : List Char)
    (gh : gfs2_holder) (st : State) (flag : Nat)
    (hown : (st.inodes ip).di_uid = env.fsuid ∨ env.capable Cap.CAP_FOWNER = true)
    (hsel : set_file_flag_select env (st.inodes ip) buf = Except.ok flag)
    (hbegin : env.gfs2_trans_begin env.RES_DINODE 0 = 0)
    (hbuf : env.gfs2_meta_inode_buffer ip = 0) :
    set_file_flag_locked env ip set buf gh st =
      (0, ⟨st.log ++
        [Event.trans_begin env.RES_DINODE 0 0,
          Event.meta_inode_buffer ip 0,
          Event.trans_add_bh (Glock.inode ip),
          Event.dinode_out ip (apply_flag set flag (st.inodes ip)),
          Event.brelse,
          Event.trans_end,
          Event.glock_dq gh],
        Function.update st.inodes ip (apply_flag set flag (st.inodes ip))⟩) := by
  rcases hown with h | h <;>
    simp [set_file_flag_locked, set_file_flag_out_trans_end, set_file_flag_out, hsel, hbegin,
      hbuf, h, emit]

theorem set_file_flag_locked_result (env : Env) (ip : Ino) (set : Bool) (buf : List Char)
    (gh : gfs2_holder) (st : State) :
    ((set_file_flag_locked env ip set buf gh st).1 ≠ 0 ∧
      (set_file_flag_locked env ip set buf gh st).2.inodes = st.inodes ∧
      ∃ evs, (set_file_flag_locked env ip set buf gh st).2.log = st.log ++ evs ∧
        ∀ i d, Event.dinode_out i d ∉ evs) ∨
    (∃ flag, set_file_flag_select env (st.inodes ip) buf = Except.ok flag ∧
      ((st.inodes ip).di_uid = env.fsuid ∨ env.capable Cap.CAP_FOWNER = true) ∧
      env.gfs2_trans_begin env.RES_DINODE 0 = 0 ∧
      env.gfs2_meta_inode_buffer ip = 0) := by
  simp only [set_file_flag_locked, set_file_flag_out_trans_end, set_file_flag_out]
  cases hsel : set_file_flag_select env (st.inodes ip) buf with
  | error e =>
    have he := select_error_ne_zero env _ buf e hsel
    simp only []
    split_ifs <;> simp_all [emit, EACCES]
  | ok flag =>
    simp only []
    split_ifs <;> simp_all [emit, EACCES]
    tauto

theorem set_file_flag_ok (env : Env) (ip : Ino) (gi : gfs2_ioctl) (st : State)
    (s1 s2 : List Char) (flag : Nat)
    (h : set_file_flag_passes env ip gi (st.inodes ip) s1 s2 flag) :
    gi_set_file_flag env ip gi st =
      (0, ⟨st.log ++ set_file_flag_success_log env ip
          (apply_flag (decide (s1 = "set".toList)) flag (st.inodes ip)),
        Function.update st.inodes ip
          (apply_flag (decide (s1 = "set".toList)) flag (st.inodes ip))⟩) := by
  obtain ⟨hargc, h1, h2, hs1, hlock, hown, hsel, hbegin, hbuf⟩ := h
  simp only [set_file_flag_gh] at hlock
  have hrun : gi_set_file_flag env ip gi st =
      set_file_flag_locked env ip (decide (s1 = "set".toList))
        (terminate (List.take ARG_SIZE s2))
        ⟨Glock.inode ip, LmState.LM_ST_EXCLUSIVE, LmFlags.zero⟩
        (emit (Event.glock_nq ⟨Glock.inode ip, LmState.LM_ST_EXCLUSIVE, LmFlags.zero⟩ 0)
          st) := by
    rcases hs1 with h | h <;> subst h <;>
      simp [gi_set_file_flag, hargc, h1, h2, strncpy_from_user, hlock,
        streq_arg _ _ (show ("set").toList.length < 31 by decide),
        streq_arg _ _ (show ("clear").toList.length < 31 by decide)]
  rw [hrun, set_file_flag_locked_ok env ip _ _ _
    (emit (Event.glock_nq ⟨Glock.inode ip, LmState.LM_ST_EXCLUSIVE, LmFlags.zero⟩ 0) st)
    flag hown hsel hbegin hbuf]
  simp [emit, set_file_flag_success_log, set_file_flag_gh]

theorem set_file_flag_result (env : Env) (ip : Ino) (gi : gfs2_ioctl) (st : State) :
    ((gi_set_file_flag env ip gi st).1 ≠ 0 ∧
      (gi_set_file_flag env ip gi st).2.inodes = st.inodes ∧
      ∃ evs, (gi_set_file_flag env ip gi st).2.log = st.log ++ evs ∧
        ∀ i d, Event.dinode_out i d ∉ evs) ∨
    (∃ s1 s2 flag, set_file_flag_passes env ip gi (st.inodes ip) s1 s2 flag) := by
  by_cases hargc : gi.gi_argc = 3
  swap
  · left
    simp [gi_set_file_flag, hargc, EINVAL]
  cases h1 : gi.gi_argv 1 with
  | none =>
    left
    simp [gi_set_file_flag, hargc, h1, strncpy_from_user, EFAULT]
  | some s1 =>
    by_cases hs1 : s1 = "set".toList ∨ s1 = "clear".toList
    swap
    · left
      have ha : ¬ s1 = ['s', 'e', 't'] := fun h => hs1 (Or.inl h)
      have hb : ¬ s1 = ['c', 'l', 'e', 'a', 'r'] := fun h => hs1 (Or.inr h)
      simp [gi_set_file_flag, hargc, h1, strncpy_from_user,
        streq_arg s1 _ (show ("set").toList.length < 31 by decide),
        streq_arg s1 _ (show ("clear").toList.length < 31 by decide), ha, hb, EINVAL]
    have hsc : (!streq (terminate (List.take ARG_SIZE s1)) "set" &&
        !streq (terminate (List.take ARG_SIZE s1)) "clear") = false := by
      rw [streq_arg s1 _ (show ("set").toList.length < 31 by decide),
        streq_arg s1 _ (show ("clear").toList.length < 31 by decide)]
      rcases hs1 with h | h <;> subst h <;> decide
    cases h2 : gi.gi_argv 2 with
    | none =>
      left
      simp [gi_set_file_flag, hargc, h1, h2, strncpy_from_user, hsc, EFAULT]
    | some s2 =>
      by_cases hlock :
          env.gfs2_glock_nq ⟨Glock.inode ip, LmState.LM_ST_EXCLUSIVE, LmFlags.zero⟩ = 0
      swap
      · left
        simp [gi_set_file_flag, hargc, h1, h2, strncpy_from_user, hsc, hlock, emit]
      have hrun : gi_set_file_flag env ip gi st =
          set_file_flag_locked env ip (decide (s1 = "set".toList))
            (terminate (List.take ARG_SIZE s2))
            ⟨Glock.inode ip, LmState.LM_ST_EXCLUSIVE, LmFlags.zero⟩
            (emit (Event.glock_nq ⟨Glock.inode ip, LmState.LM_ST_EXCLUSIVE, LmFlags.zero⟩ 0)
              st) := by
        rcases hs1 with h | h <;> subst h <;>
          simp [gi_set_file_flag, hargc, h1, h2, strncpy_from_user, hlock,
            streq_arg _ _ (show ("set").toList.length < 31 by decide),
            streq_arg _ _ (show ("clear").toList.length < 31 by decide)]
      rw [hrun]
      rcases set_file_flag_locked_result env ip (decide (s1 = "set".toList))
          (terminate (List.take ARG_SIZE s2))
          ⟨Glock.inode ip, LmState.LM_ST_EXCLUSIVE, LmFlags.zero⟩
          (emit (Event.glock_nq ⟨Glock.inode ip, LmState.LM_ST_EXCLUSIVE, LmFlags.zero⟩ 0) st)
        with ⟨hne, hin, evs, hlog, hevs⟩ | ⟨flag, hsel, hown, hbegin, hbuf⟩
      · left
        refine ⟨hne, by rw [hin]; rfl, Event.glock_nq
          ⟨Glock.inode ip, LmState.LM_ST_EXCLUSIVE, LmFlags.zero⟩ 0 :: evs, ?_, ?_⟩
        · rw [hlog]
          simp [emit]
        · intro i d hmem
          rcases List.mem_cons.1 hmem with h | h
          · cases h
          · exact hevs i d h
      · right
        exact ⟨s1, s2, flag, hargc, h1, h2, hs1, hlock, hown, hsel, hbegin, hbuf⟩

theorem apply_flag_clear_bit (flag : Nat) (di : gfs2_dinode) (h : di.di_flags < U32)
    (i : Nat) :
    (apply_flag false flag di).di_flags.testBit i =
      (di.di_flags.testBit i && !flag.testBit i) := by
  have hm : (0xFFFFFFFF : Nat) = 2 ^ 32 - 1 := by norm_num
  simp only [apply_flag, Bool.false_eq_true, if_false, Nat.testBit_and, Nat.testBit_xor, hm,
    Nat.testBit_two_pow_sub_one]
  by_cases hi : i < 32
  · simp [hi]
  · have : di.di_flags.testBit i = false := by
      apply Nat.testBit_eq_false_of_lt
      calc di.di_flags < 2 ^ 32 := h
        _ ≤ 2 ^ i := Nat.pow_le_pow_right (by norm_num) (by omega)
    simp [this]

theorem apply_flag_idem (set : Bool) (flag : Nat) (di : gfs2_dinode) :
    apply_flag set flag (apply_flag set flag di) = apply_flag set flag di := by
  cases set
  · simp only [apply_flag, Bool.false_eq_true, if_false, Nat.land_assoc, Nat.and_self]
  · simp only [apply_flag, if_true, Nat.lor_assoc, Nat.or_self]

theorem apply_flag_uid (set : Bool) (flag : Nat) (di : gfs2_dinode) :
    (apply_flag set flag di).di_uid = di.di_uid := by
  cases set <;> rfl

theorem set_file_flag_passes_again (env : Env) (ip : Ino) (gi : gfs2_ioctl) (di : gfs2_dinode)
    (s1 s2 : List Char) (flag : Nat) (set : Bool)
    (h : set_file_flag_passes env ip gi di s1 s2 flag) :
    set_file_flag_passes env ip gi (apply_flag set flag di) s1 s2 flag := by
  obtain ⟨hargc, h1, h2, hs1, hlock, hown, hsel, hbegin, hbuf⟩ := h
  exact ⟨hargc, h1, h2, hs1, hlock, by rw [apply_flag_uid]; exact hown,
    by rw [select_apply_flag]; exact hsel, hbegin, hbuf⟩

theorem set_file_flag_rejected (env : Env) (ip : Ino) (gi : gfs2_ioctl) (st : State)
    (s1 s2 : List Char) (e : Int)
    (hargc : gi.gi_argc = 3) (h1 : gi.gi_argv 1 = some s1)
    (hs1 : s1 = "set".toList ∨ s1 = "clear".toList) (h2 : gi.gi_argv 2 = some s2)
    (hlock : env.gfs2_glock_nq (set_file_flag_gh ip) = 0)
    (hown : (st.inodes ip).di_uid = env.fsuid)
    (hsel : set_file_flag_select env (st.inodes ip) (terminate (List.take ARG_SIZE s2)) =
      Except.error e) :
    gi_set_file_flag env ip gi st =
      (e, ⟨st.log ++ [Event.glock_nq (set_file_flag_gh ip) 0,
        Event.glock_dq (set_file_flag_gh ip)], st.inodes⟩) := by
  simp only [set_file_flag_gh] at hlock ⊢
  have hsel2 : set_file_flag_select env
      ((emit (Event.glock_nq ⟨Glock.inode ip, LmState.LM_ST_EXCLUSIVE, LmFlags.zero⟩ 0)
        st).inodes ip) (terminate (List.take ARG_SIZE s2)) = Except.error e := hsel
  rcases hs1 with h | h <;> subst h <;>
    simp [gi_set_file_flag, set_file_flag_locked, set_file_flag_out, hargc, h1, h2,
      strncpy_from_user, hlock, hown, hsel, hsel2, emit,
      streq_arg _ _ (show ("set").toList.length < 31 by decide),
      streq_arg _ _ (show ("clear").toList.length < 31 by decide)]

theorem select_unnamed (env : Env) (di : gfs2_dinode) (s2 : List Char)
    (h : named_flag env s2 = none) :
    set_file_flag_select env di (terminate (List.take ARG_SIZE s2)) =
      Except.error (-EINVAL) := by
  unfold named_flag at h
  simp only [set_file_flag_select,
    streq_arg s2 _ (show ("jdata").toList.length < 31 by decide),
    streq_arg s2 _ (show ("directio").toList.length < 31 by decide),
    streq_arg s2 _ (show ("immutable").toList.length < 31 by decide),
    streq_arg s2 _ (show ("appendonly").toList.length < 31 by decide),
    streq_arg s2 _ (show ("inherit_jdata").toList.length < 31 by decide),
    streq_arg s2 _ (show ("inherit_directio").toList.length < 31 by decide),
    decide_eq_true_eq]
  split_ifs at h ⊢
  simp_all

theorem MAKE_MULT8_least (x : Nat) : least_multiple_of_8 x (MAKE_MULT8 x) := by
  refine ⟨Dvd.intro_left _ rfl, ?_, ?_⟩
  · unfold MAKE_MULT8
    omega
  · rintro m ⟨k, rfl⟩ hx
    unfold MAKE_MULT8
    omega

theorem DIV_RU_ceiling (x y : Nat) (hy : 0 < y) : ceiling_of x y (DIV_RU x y) := by
  unfold ceiling_of DIV_RU
  constructor
  · have h1 := Nat.div_add_mod (x + y - 1) y
    have h2 := Nat.mod_lt (x + y - 1) hy
    rw [Nat.mul_comm] at h1
    omega
  · intro m hm
    rw [← Nat.lt_succ_iff, Nat.div_lt_iff_lt_mul hy, Nat.succ_mul]
    omega

/-! ## The claims -/

/-- C1. For a request whose header and argument vector copy in, whose
argument count is at least 1 and whose command string `s` is readable: the
log shows the handler of command `c` invoked exactly when `s` equals the name
of `c` byte for byte; in that case the dispatcher returns what that handler
returns and the log shows this one invocation only; when `s` is none of the
fifteen names (a longer string, a proper prefix or an extension of a name
included) the dispatcher returns `-ENOTTY` and leaves the state, log
included, as it was. -/
theorem dispatch_by_name (env : Env) (ip : Ino) (u : gfs2_ioctl_user)
    (argv : Nat → Option (List Char)) (s : List Char) (st : State)
    (hargc : 1 ≤ u.gi_argc) (hk : env.kcalloc_ok = true) (hv : u.gi_argv = some argv)
    (h0 : argv 0 = some s) :
    (∀ c : Cmd, (∃ evs, (gfs2_ioctl_i env ip (some u) st).2.log = st.log ++ evs ∧
        Event.call c ∈ evs) ↔ s = c.name.toList) ∧
    (∀ c : Cmd, s = c.name.toList →
      gfs2_ioctl_i env ip (some u) st =
        c.handler env ip ⟨u.gi_argc, argv, u.gi_data, u.gi_size, u.gi_offset⟩
          (emit (Event.call c) st) ∧
      ∃ evs, (gfs2_ioctl_i env ip (some u) st).2.log = st.log ++ evs ∧ calls evs = [c]) ∧
    ((∀ c : Cmd, s ≠ c.name.toList) → gfs2_ioctl_i env ip (some u) st = (-ENOTTY, st)) := by
  have known : ∀ c : Cmd, s = c.name.toList →
      gfs2_ioctl_i env ip (some u) st =
        c.handler env ip ⟨u.gi_argc, argv, u.gi_data, u.gi_size, u.gi_offset⟩
          (emit (Event.call c) st) ∧
      ∃ evs, (gfs2_ioctl_i env ip (some u) st).2.log = st.log ++ evs ∧ calls evs = [c] := by
    intro c hs
    have e := dispatch_known env ip u argv st c hargc hk hv (hs ▸ h0)
    refine ⟨e, ?_⟩
    obtain ⟨evs, hl, hc, _⟩ := handler_audit env ip c
      ⟨u.gi_argc, argv, u.gi_data, u.gi_size, u.gi_offset⟩ (emit (Event.call c) st)
    refine ⟨Event.call c :: evs, ?_, ?_⟩
    · rw [e, hl]; simp [emit]
    · simp only [calls] at hc ⊢
      simp [hc]
  refine ⟨?_, known, dispatch_unknown env ip u argv s st hargc hk hv h0⟩
  intro c
  constructor
  · rintro ⟨evs, hl, hm⟩
    by_cases hex : ∃ c1 : Cmd, s = c1.name.toList
    · obtain ⟨c1, hc1⟩ := hex
      obtain ⟨_, evs1, hl1, hcalls⟩ := known c1 hc1
      have : evs = evs1 := List.append_cancel_left (hl.symm.trans hl1)
      subst this
      have hin : c ∈ calls evs := by
        simp only [calls, List.mem_filterMap]
        exact ⟨Event.call c, hm, rfl⟩
      rw [hcalls] at hin
      simp at hin
      rw [hin]; exact hc1
    · have hno : ∀ c1 : Cmd, s ≠ c1.name.toList := fun c1 h => hex ⟨c1, h⟩
      rw [dispatch_unknown env ip u argv s st hargc hk hv h0 hno] at hl
      have : evs = [] := by
        have := congrArg List.length hl
        simp at this
        exact this
      subst this
      simp at hm
  · intro hs
    obtain ⟨_, evs, hl, hcalls⟩ := known c hs
    refine ⟨evs, hl, ?_⟩
    have hin : c ∈ calls evs := by rw [hcalls]; simp
    simp only [calls, List.mem_filterMap] at hin
    obtain ⟨e, he, hec⟩ := hin
    cases e <;> simp at hec
    subst hec
    exact he

/-- The hypotheses of the theorem for C1 hold at a concrete input: `get_bmap` is
dispatched to `gi_get_bmap`, `get_bmapx` to no handler. -/
theorem dispatch_by_name_witness :
    (1 ≤ (ureq 1 ["get_bmap"] 8).gi_argc ∧ env_root.kcalloc_ok = true) ∧
    gfs2_ioctl_i env_root 0 (some (ureq 1 ["get_bmap"] 8)) (st_of di_empty) =
      gi_get_bmap env_root 0 (req 1 ["get_bmap"] 8)
        (emit (Event.call Cmd.get_bmap) (st_of di_empty)) ∧
    gfs2_ioctl_i env_root 0 (some (ureq 1 ["get_bmapx"] 8)) (st_of di_empty) =
      (-ENOTTY, st_of di_empty) :=
  ⟨⟨by decide, rfl⟩,
    ((dispatch_by_name env_root 0 (ureq 1 ["get_bmap"] 8)
      (fun i => (["get_bmap"].get? i).map String.toList) "get_bmap".toList (st_of di_empty)
      (by decide) rfl rfl rfl).2.1 Cmd.get_bmap rfl).1,
    (dispatch_by_name env_root 0 (ureq 1 ["get_bmapx"] 8)
      (fun i => (["get_bmapx"].get? i).map String.toList) "get_bmapx".toList (st_of di_empty)
      (by decide) rfl rfl rfl).2.2 (by intro c; cases c <;> decide)⟩

/-- C2, as stated, fails: `do_hfile_read` sent with one argument instead of
two by a caller without `CAP_SYS_ADMIN` returns `-EACCES`, not `-EINVAL`. -/
theorem argc_mismatch_unprivileged :
    (ureq 1 ["do_hfile_read"] 0).gi_argc ≠ Cmd.argc Cmd.do_hfile_read ∧
    (gfs2_ioctl_i env_user 0 (some (ureq 1 ["do_hfile_read"] 0)) (st_of di_empty)).1 = -EACCES ∧
    (gfs2_ioctl_i env_user 0 (some (ureq 1 ["do_hfile_read"] 0)) (st_of di_empty)).1 ≠ -EINVAL := by
  decide

/-- C2, amended. For each of the fifteen commands and every request whose
argument count differs from the count the command's handler expects, the
dispatcher acquires no lock and returns `-EINVAL`, except that the seven
handlers which test `CAP_SYS_ADMIN` before the argument count return
`-EACCES` to a caller without that capability (when the count is not 0). -/
theorem argc_mismatch (env : Env) (ip : Ino) (u : gfs2_ioctl_user)
    (argv : Nat → Option (List Char)) (c : Cmd) (st : State)
    (hk : env.kcalloc_ok = true) (hv : u.gi_argv = some argv)
    (h0 : argv 0 = some c.name.toList) (hne : u.gi_argc ≠ c.argc) :
    (gfs2_ioctl_i env ip (some u) st).1 =
      (if u.gi_argc ≠ 0 ∧ c.admin_first = true ∧ env.capable Cap.CAP_SYS_ADMIN = false
        then -EACCES else -EINVAL) ∧
    ∃ evs, (gfs2_ioctl_i env ip (some u) st).2.log = st.log ++ evs ∧ acquisitions evs = [] := by
  by_cases hz : u.gi_argc = 0
  · simp [gfs2_ioctl_i, hz, acquisitions]
  · rw [dispatch_known env ip u argv st c (by omega) hk hv h0]
    cases hcap : env.capable Cap.CAP_SYS_ADMIN <;> cases c <;>
      simp [Cmd.argc] at hne <;>
      simp [Cmd.handler, Cmd.admin_first, gi_get_super, gi_get_file_stat, gi_set_file_flag,
        gi_get_bmap, gi_get_file_meta, gi_do_file_flush, gi_get_hfile_stat, gi_do_hfile_read,
        gi_do_hfile_write, gi_do_hfile_trunc, gi_do_quota_sync, gi_do_quota_refresh,
        gi_do_quota_read, gi_resize_add_rgrps, gi_rename2system, gi2hip, hne, hz, hcap, emit,
        acquisitions]

/-- The hypotheses of the theorem for C2 hold at a concrete input: `get_super`
sent with two arguments. -/
theorem argc_mismatch_witness :
    (env_root.kcalloc_ok = true ∧ (ureq 2 ["get_super"] 208).gi_argc ≠ Cmd.argc Cmd.get_super) ∧
    (gfs2_ioctl_i env_root 0 (some (ureq 2 ["get_super"] 208)) (st_of di_empty)).1 = -EINVAL :=
  ⟨⟨rfl, by decide⟩,
    (argc_mismatch env_root 0 (ureq 2 ["get_super"] 208)
      (fun i => (["get_super"].get? i).map String.toList) Cmd.get_super (st_of di_empty)
      rfl rfl rfl (by decide)).1.trans (by decide)⟩

/-- C3, as stated, fails: `get_hfile_stat` with two arguments, a buffer of the
wrong size and a name argument that cannot be read returns `-EFAULT`. -/
theorem size_mismatch_name_fault :
    req_bad_name.gi_argc = Cmd.argc Cmd.get_hfile_stat ∧
    Cmd.fixed_size env_root Cmd.get_hfile_stat = some 232 ∧
    req_bad_name.gi_size ≠ 232 ∧
    (gi_get_hfile_stat env_root req_bad_name (st_of di_empty)).1 = -EFAULT ∧
    (gi_get_hfile_stat env_root req_bad_name (st_of di_empty)).1 ≠ -EINVAL ∧
    (gfs2_ioctl_i env_root 0 (some ureq_bad_name) (st_of di_empty)).1 = -EFAULT := by
  decide

/-- C3, amended. For each handler that compares the buffer size with a fixed
size and every request with the expected argument count and another buffer
size, the handler leaves the state as it was (no lock, no copy to or from the
data buffer) and returns `-EINVAL`, except that `get_hfile_stat`, which
resolves its name argument first, returns `-EFAULT` when that argument cannot
be read. -/
theorem size_mismatch (env : Env) (ip : Ino) (c : Cmd) (n : Nat) (gi : gfs2_ioctl) (st : State)
    (hf : c.fixed_size env = some n) (ha : gi.gi_argc = c.argc) (hs : gi.gi_size ≠ n) :
    c.handler env ip gi st =
      (if c = Cmd.get_hfile_stat ∧ gi.gi_argv 1 = none then -EFAULT else -EINVAL, st) := by
  cases c <;> simp [Cmd.fixed_size] at hf <;> subst hf <;> simp [Cmd.argc] at ha
  · simp [Cmd.handler, gi_get_super, ha, hs]
  · simp [Cmd.handler, gi_get_file_stat, ha, hs]
  · simp [Cmd.handler, gi_get_bmap, ha, hs]
  · simp only [Cmd.handler, gi_get_hfile_stat, gi2hip, ha, strncpy_from_user]
    cases h1 : gi.gi_argv 1 with
    | none => simp
    | some b =>
      simp only [Option.map]
      split_ifs <;> simp_all
  · simp [Cmd.handler, gi_do_quota_read, ha, hs]

/-- The hypotheses of the theorem for C3 hold at a concrete input: `get_bmap` with
a buffer of 4 bytes. -/
theorem size_mismatch_witness :
    (Cmd.fixed_size env_root Cmd.get_bmap = some 8 ∧
      (req 1 ["get_bmap"] 4).gi_argc = Cmd.argc Cmd.get_bmap ∧
      (req 1 ["get_bmap"] 4).gi_size ≠ 8) ∧
    gi_get_bmap env_root 0 (req 1 ["get_bmap"] 4) (st_of di_empty) = (-EINVAL, st_of di_empty) :=
  ⟨⟨rfl, rfl, by decide⟩,
    (size_mismatch env_root 0 Cmd.get_bmap 8 (req 1 ["get_bmap"] 4) (st_of di_empty)
      rfl rfl (by decide)).trans (by simp)⟩

/-- C4. Every handler of `ioctl.c`, for every outcome of its collaborators,
only appends to the log, and what it appends passes the lock audit: each
granted holder is released exactly once, no holder is released that is not
held, and none is held when the handler returns. -/
theorem lock_discipline (env : Env) (ip : Ino) (c : Cmd) (gi : gfs2_ioctl) (st : State) :
    ∃ evs, (c.handler env ip gi st).2.log = st.log ++ evs ∧ LockDiscipline evs := by
  obtain ⟨evs, hl, _, hk⟩ := handler_audit env ip c gi st
  exact ⟨evs, hl, hk⟩

/-- C5. In every run of `gi_set_file_flag` and of `gi_do_hfile_write`, for
every outcome of the collaborators, the appended log passes the transaction
audit: a begin that succeeds is followed by exactly one end, a begin that
fails by none, no end comes without a successful begin, and begin and end lie
between the grant and the release of the handler's exclusive lock. -/
theorem transaction_discipline (env : Env) (ip : Ino) (gi : gfs2_ioctl) (st : State) :
    (∃ evs, (gi_set_file_flag env ip gi st).2.log = st.log ++ evs ∧ TxDiscipline evs) ∧
    (∃ evs, (gi_do_hfile_write env gi st).2.log = st.log ++ evs ∧ TxDiscipline evs) := by
  obtain ⟨evs1, hl1, _, _, ht1⟩ := gi_set_file_flag_log env ip gi st
  obtain ⟨evs2, hl2, _, _, ht2⟩ := gi_do_hfile_write_log env gi st
  exact ⟨⟨evs1, hl1, ht1⟩, ⟨evs2, hl2, ht2⟩⟩

/-- C6, as stated, fails: `do_quota_read` by a caller without `CAP_SYS_ADMIN`
returns 0, calls the quota engine and copies the record out. -/
theorem quota_read_unprivileged :
    env_user.capable Cap.CAP_SYS_ADMIN = false ∧
    (gi_do_quota_read env_user (req 2 ["do_quota_read", "u:1000"] 88) (st_of di_empty)).1 = 0 ∧
    (gi_do_quota_read env_user (req 2 ["do_quota_read", "u:1000"] 88) (st_of di_empty)).2.log =
      [Event.quota_read 1 1000, Event.copy_to_user 0 (Payload.quota ⟨0, 0, 0⟩) true] := by
  decide

/-- C6, amended. For the seven handlers that test the capability
(`do_hfile_read`, `do_hfile_write`, `do_hfile_trunc`, `do_quota_sync`,
`do_quota_refresh`, `resize_add_rgrps`, `rename2system`) and a caller without
`CAP_SYS_ADMIN`, the handler returns `-EACCES` and leaves the state as it
was: no lock, no collaborator call, no copy. -/
theorem admin_required (env : Env) (ip : Ino) (c : Cmd) (gi : gfs2_ioctl) (st : State)
    (hc : c.admin_first = true) (hcap : env.capable Cap.CAP_SYS_ADMIN = false) :
    c.handler env ip gi st = (-EACCES, st) := by
  cases c <;> simp [Cmd.admin_first] at hc <;>
    simp [Cmd.handler, gi_do_hfile_read, gi_do_hfile_write, gi_do_hfile_trunc, gi_do_quota_sync,
      gi_do_quota_refresh, gi_resize_add_rgrps, gi_rename2system, hcap]

/-- The hypotheses of the theorem for C6 hold at a concrete input:
`do_quota_refresh` by a caller without capabilities. -/
theorem admin_required_witness :
    (Cmd.admin_first Cmd.do_quota_refresh = true ∧
      env_user.capable Cap.CAP_SYS_ADMIN = false) ∧
    gi_do_quota_refresh env_user (req 2 ["do_quota_refresh", "u:1000"] 0) (st_of di_empty) =
      (-EACCES, st_of di_empty) :=
  ⟨⟨rfl, rfl⟩,
    admin_required env_user 0 Cmd.do_quota_refresh (req 2 ["do_quota_refresh", "u:1000"] 0)
      (st_of di_empty) rfl rfl⟩

/-- C7. `set_file_flag("set", "immutable")` by a caller without
`CAP_LINUX_IMMUTABLE` never changes an inode record; once its lock is granted
it returns a permission error (`-EACCES` to a caller who neither owns the file
nor holds `CAP_FOWNER`, `-EPERM` otherwise) and its log is the grant and the
release of the lock, with no transaction; when the lock is refused it returns
the lock manager's error and the log is that one refused request. -/
theorem set_immutable_denied (env : Env) (ip : Ino) (gi : gfs2_ioctl) (st : State)
    (hargc : gi.gi_argc = 3) (h1 : gi.gi_argv 1 = some "set".toList)
    (h2 : gi.gi_argv 2 = some "immutable".toList)
    (hcap : env.capable Cap.CAP_LINUX_IMMUTABLE = false) :
    (gi_set_file_flag env ip gi st).2.inodes = st.inodes ∧
    (env.gfs2_glock_nq (set_file_flag_gh ip) = 0 →
      (gi_set_file_flag env ip gi st).1 =
        (if (st.inodes ip).di_uid ≠ env.fsuid ∧ env.capable Cap.CAP_FOWNER = false
          then -EACCES else -EPERM) ∧
      (gi_set_file_flag env ip gi st).2.log =
        st.log ++
          [Event.glock_nq (set_file_flag_gh ip) 0, Event.glock_dq (set_file_flag_gh ip)]) ∧
    (env.gfs2_glock_nq (set_file_flag_gh ip) ≠ 0 →
      (gi_set_file_flag env ip gi st).1 = env.gfs2_glock_nq (set_file_flag_gh ip) ∧
      (gi_set_file_flag env ip gi st).2.log =
        st.log ++
          [Event.glock_nq (set_file_flag_gh ip) (env.gfs2_glock_nq (set_file_flag_gh ip))]) := by
  simp only [set_file_flag_gh]
  by_cases hlock : env.gfs2_glock_nq ⟨Glock.inode ip, LmState.LM_ST_EXCLUSIVE, LmFlags.zero⟩ = 0
  · by_cases ho1 : (st.inodes ip).di_uid = env.fsuid <;>
      cases ho2 : env.capable Cap.CAP_FOWNER <;>
      simp [gi_set_file_flag, set_file_flag_locked, set_file_flag_out, set_file_flag_select,
        hargc, h1, h2, strncpy_from_user, arg_short, streq, hlock, emit, ho1, ho2, hcap]
  · simp [gi_set_file_flag, hargc, h1, h2, strncpy_from_user, arg_short, streq, hlock, emit]

/-- The hypotheses of the theorem for C7 hold at a concrete input: the owner of
the file, without capabilities. -/
theorem set_immutable_denied_witness :
    ((req 3 ["set_file_flag", "set", "immutable"] 0).gi_argc = 3 ∧
      env_owner.capable Cap.CAP_LINUX_IMMUTABLE = false) ∧
    (gi_set_file_flag env_owner 0 (req 3 ["set_file_flag", "set", "immutable"] 0)
      (st_of di_empty)).1 = -EPERM :=
  ⟨⟨rfl, rfl⟩,
    ((set_immutable_denied env_owner 0 (req 3 ["set_file_flag", "set", "immutable"] 0)
      (st_of di_empty) rfl rfl rfl rfl).2.1 rfl).1.trans (by decide)⟩

/-- C9, as stated, fails. When allocation is required, the count passed to
`gfs2_trans_begin` also holds the bitmap length of the reserved resource
group: 7 where the claim gives 4. When no allocation is required it leaves
the indirect blocks out: 2 where the claim gives 3. -/
theorem trans_blocks_other_terms :
    begins (gi_do_hfile_write env_root (req 2 ["do_hfile_write", "jindex"] 4096)
      (st_of di_jdata)).2.log = [7] ∧
    env_root.RES_DINODE + env_root.RES_STATFS +
      ((env_root.gfs2_write_calc_reserv 1 4096).1 + (env_root.gfs2_write_calc_reserv 1 4096).2)
      = 4 ∧
    begins (gi_do_hfile_write env_noalloc (req 2 ["do_hfile_write", "jindex"] 4096)
      (st_of di_jdata)).2.log = [2] ∧
    env_noalloc.RES_DINODE +
      ((env_noalloc.gfs2_write_calc_reserv 1 4096).1 +
        (env_noalloc.gfs2_write_calc_reserv 1 4096).2) = 3 := by
  decide

/-- C9, amended. In `do_hfile_write`, whenever the handler reaches
`gfs2_trans_begin` (privileged caller, hidden regular file with the
journaled-data flag, readable buffer, lock granted, allocation check and
reservation without error), it calls it once, with, in 32-bit unsigned
arithmetic: the bitmap length of the reserved resource group plus the data
blocks plus the indirect blocks plus `RES_DINODE` plus `RES_STATFS` when
allocation is required, and the data blocks plus `RES_DINODE` when it is not. -/
theorem trans_blocks (env : Env) (gi : gfs2_ioctl) (ip : Ino) (st : State)
    (hcap : env.capable Cap.CAP_SYS_ADMIN = true) (hip : gi2hip env gi = Except.ok ip)
    (hreg : S_ISREG (st.inodes ip).di_mode = true)
    (hacc : env.access_ok gi.gi_data gi.gi_size = true)
    (hlock : env.gfs2_glock_nq (hfile_write_gh ip) = 0)
    (hjd : env.gfs2_is_jdata (st.inodes ip) = true)
    (hreq : (env.gfs2_write_alloc_required ip gi.gi_offset gi.gi_size).1 = 0)
    (hres : (env.gfs2_write_alloc_required ip gi.gi_offset gi.gi_size).2 ≠ 0 →
      env.gfs2_inplace_reserve ip
        (((env.gfs2_write_calc_reserv ip gi.gi_size).1 +
          (env.gfs2_write_calc_reserv ip gi.gi_size).2) % U32) = 0) :
    ∃ evs, (gi_do_hfile_write env gi st).2.log = st.log ++ evs ∧
      begins evs =
        [if (env.gfs2_write_alloc_required ip gi.gi_offset gi.gi_size).2 ≠ 0 then
          (env.ri_length ip + (env.gfs2_write_calc_reserv ip gi.gi_size).1 +
            (env.gfs2_write_calc_reserv ip gi.gi_size).2 + env.RES_DINODE + env.RES_STATFS) % U32
        else ((env.gfs2_write_calc_reserv ip gi.gi_size).1 + env.RES_DINODE) % U32] := by
  simp only [hfile_write_gh] at hlock
  by_cases ha : (env.gfs2_write_alloc_required ip gi.gi_offset gi.gi_size).2 = 0
  · simp only [gi_do_hfile_write, hfile_write_locked, hfile_write_data, hfile_write_out_relse,
      hfile_write_out_alloc, hfile_write_out, hcap, hip, hreg, hacc, hlock, hjd, hreq, ha, emit]
    split_ifs <;> simp_all [begins]
  · have hr := hres ha
    simp only [gi_do_hfile_write, hfile_write_locked, hfile_write_data, hfile_write_out_relse,
      hfile_write_out_alloc, hfile_write_out, hcap, hip, hreg, hacc, hlock, hjd, hreq, ha, hr, emit]
    split_ifs <;> simp_all [begins]

/-- The hypotheses of the theorem for C9 hold at a concrete input: a write to the
journal index that needs allocation. -/
theorem trans_blocks_witness :
    (env_root.capable Cap.CAP_SYS_ADMIN = true ∧
      gi2hip env_root (req 2 ["do_hfile_write", "jindex"] 4096) = Except.ok 1 ∧
      env_root.gfs2_is_jdata ((st_of di_jdata).inodes 1) = true) ∧
    ∃ evs, (gi_do_hfile_write env_root (req 2 ["do_hfile_write", "jindex"] 4096)
        (st_of di_jdata)).2.log = (st_of di_jdata).log ++ evs ∧
      begins evs = [7] :=
  ⟨⟨rfl, rfl, by decide⟩,
    trans_blocks env_root (req 2 ["do_hfile_write", "jindex"] 4096) 1 (st_of di_jdata)
      rfl rfl (by decide) rfl rfl (by decide) rfl (fun _ => rfl)⟩

/-- C10. In `do_hfile_write`, when the allocation check succeeds and reports
that no block is needed, no step of the allocation reservation is logged
(`gfs2_alloc_get`, `gfs2_inplace_reserve`, `gfs2_inplace_release`,
`gfs2_alloc_put`), whatever `gfs2_trans_begin` returns; when the transaction
begins, the write is logged between the begin and the end of the transaction,
under the lock; when it does not, the handler returns that error after
releasing the lock. -/
theorem no_reservation_without_need (env : Env) (gi : gfs2_ioctl) (ip : Ino) (st : State)
    (hcap : env.capable Cap.CAP_SYS_ADMIN = true) (hip : gi2hip env gi = Except.ok ip)
    (hreg : S_ISREG (st.inodes ip).di_mode = true)
    (hacc : env.access_ok gi.gi_data gi.gi_size = true)
    (hlock : env.gfs2_glock_nq (hfile_write_gh ip) = 0)
    (hjd : env.gfs2_is_jdata (st.inodes ip) = true)
    (hreq : env.gfs2_write_alloc_required ip gi.gi_offset gi.gi_size = (0, 0)) :
    (∃ evs, (gi_do_hfile_write env gi st).2.log = st.log ++ evs ∧ alloc_events evs = []) ∧
    (env.gfs2_trans_begin
        (((env.gfs2_write_calc_reserv ip gi.gi_size).1 + env.RES_DINODE) % U32) 0 = 0 →
      gi_do_hfile_write env gi st =
        (env.gfs2_jdata_write ip gi.gi_data gi.gi_offset gi.gi_size,
          ⟨st.log ++
            [Event.glock_nq (hfile_write_gh ip) 0,
              Event.write_alloc_required ip gi.gi_offset gi.gi_size,
              Event.trans_begin
                (((env.gfs2_write_calc_reserv ip gi.gi_size).1 + env.RES_DINODE) % U32) 0 0,
              Event.jdata_write ip gi.gi_data gi.gi_offset gi.gi_size,
              Event.trans_end,
              Event.glock_dq (hfile_write_gh ip)], st.inodes⟩)) ∧
    (env.gfs2_trans_begin
        (((env.gfs2_write_calc_reserv ip gi.gi_size).1 + env.RES_DINODE) % U32) 0 ≠ 0 →
      gi_do_hfile_write env gi st =
        (env.gfs2_trans_begin
            (((env.gfs2_write_calc_reserv ip gi.gi_size).1 + env.RES_DINODE) % U32) 0,
          ⟨st.log ++
            [Event.glock_nq (hfile_write_gh ip) 0,
              Event.write_alloc_required ip gi.gi_offset gi.gi_size,
              Event.trans_begin
                (((env.gfs2_write_calc_reserv ip gi.gi_size).1 + env.RES_DINODE) % U32) 0
                (env.gfs2_trans_begin
                  (((env.gfs2_write_calc_reserv ip gi.gi_size).1 + env.RES_DINODE) % U32) 0),
              Event.glock_dq (hfile_write_gh ip)], st.inodes⟩)) := by
  simp only [hfile_write_gh] at hlock ⊢
  have h1 : (env.gfs2_write_alloc_required ip gi.gi_offset gi.gi_size).1 = 0 := by rw [hreq]
  have h2 : (env.gfs2_write_alloc_required ip gi.gi_offset gi.gi_size).2 = 0 := by rw [hreq]
  refine ⟨?_, ?_, ?_⟩
  · simp only [gi_do_hfile_write, hfile_write_locked, hfile_write_data, hfile_write_out_relse,
      hfile_write_out_alloc, hfile_write_out, hcap, hip, hreg, hacc, hlock, hjd, h1, h2, emit]
    split_ifs <;> simp_all [alloc_events]
  · intro hb
    simp [gi_do_hfile_write, hfile_write_locked, hfile_write_data, hfile_write_out_relse,
      hfile_write_out_alloc, hfile_write_out, hcap, hip, hreg, hacc, hlock, hjd, h1, h2, hb, emit]
  · intro hb
    simp [gi_do_hfile_write, hfile_write_locked, hfile_write_data, hfile_write_out_relse,
      hfile_write_out_alloc, hfile_write_out, hcap, hip, hreg, hacc, hlock, hjd, h1, h2, hb, emit]

/-- The hypotheses of the theorem for C10 hold at a concrete input: a write to the
quota file that needs no allocation. -/
theorem no_reservation_without_need_witness :
    (env_noalloc.capable Cap.CAP_SYS_ADMIN = true ∧
      gi2hip env_noalloc (req 2 ["do_hfile_write", "quota"] 4096) = Except.ok 3 ∧
      env_noalloc.gfs2_write_alloc_required 3 0 4096 = (0, 0)) ∧
    ∃ evs, (gi_do_hfile_write env_noalloc (req 2 ["do_hfile_write", "quota"] 4096)
        (st_of di_jdata)).2.log = (st_of di_jdata).log ++ evs ∧
      alloc_events evs = [] :=
  ⟨⟨rfl, rfl, rfl⟩,
    (no_reservation_without_need env_noalloc (req 2 ["do_hfile_write", "quota"] 4096) 3
      (st_of di_jdata) rfl rfl (by decide) rfl rfl (by decide) rfl).1⟩

/-- C11. In `gi_do_hfile_write`, when allocation is required (privileged caller,
regular journaled-data file, lock granted): the reservation comes before the
transaction begin, whose block count is computed from it; if the reservation
fails there is no begin and no release, and the allocation context is put; if
it succeeds it is released once, after the transaction ended or after the begin
failed, and the allocation context is put once after that. -/
theorem reservation_order (env : Env) (gi : gfs2_ioctl) (ip : Ino) (st : State)
    (hcap : env.capable Cap.CAP_SYS_ADMIN = true) (hip : gi2hip env gi = Except.ok ip)
    (hreg : S_ISREG (st.inodes ip).di_mode = true)
    (hacc : env.access_ok gi.gi_data gi.gi_size = true)
    (hlock : env.gfs2_glock_nq (hfile_write_gh ip) = 0)
    (hjd : env.gfs2_is_jdata (st.inodes ip) = true)
    (hreq : (env.gfs2_write_alloc_required ip gi.gi_offset gi.gi_size).1 = 0)
    (hneed : (env.gfs2_write_alloc_required ip gi.gi_offset gi.gi_size).2 ≠ 0) :
    (env.gfs2_inplace_reserve ip (hfile_write_requested env gi ip) ≠ 0 →
      gi_do_hfile_write env gi st =
        (env.gfs2_inplace_reserve ip (hfile_write_requested env gi ip),
          ⟨st.log ++
            [Event.glock_nq (hfile_write_gh ip) 0,
              Event.write_alloc_required ip gi.gi_offset gi.gi_size,
              Event.alloc_get ip,
              Event.inplace_reserve ip (hfile_write_requested env gi ip)
                (env.gfs2_inplace_reserve ip (hfile_write_requested env gi ip)),
              Event.alloc_put ip,
              Event.glock_dq (hfile_write_gh ip)], st.inodes⟩)) ∧
    (env.gfs2_inplace_reserve ip (hfile_write_requested env gi ip) = 0 →
      env.gfs2_trans_begin (hfile_write_blocks env gi ip) 0 ≠ 0 →
      gi_do_hfile_write env gi st =
        (env.gfs2_trans_begin (hfile_write_blocks env gi ip) 0,
          ⟨st.log ++
            [Event.glock_nq (hfile_write_gh ip) 0,
              Event.write_alloc_required ip gi.gi_offset gi.gi_size,
              Event.alloc_get ip,
              Event.inplace_reserve ip (hfile_write_requested env gi ip) 0,
              Event.trans_begin (hfile_write_blocks env gi ip) 0
                (env.gfs2_trans_begin (hfile_write_blocks env gi ip) 0),
              Event.inplace_release ip,
              Event.alloc_put ip,
              Event.glock_dq (hfile_write_gh ip)], st.inodes⟩)) ∧
    (env.gfs2_inplace_reserve ip (hfile_write_requested env gi ip) = 0 →
      env.gfs2_trans_begin (hfile_write_blocks env gi ip) 0 = 0 →
      gi_do_hfile_write env gi st =
        (env.gfs2_jdata_write ip gi.gi_data gi.gi_offset gi.gi_size,
          ⟨st.log ++
            [Event.glock_nq (hfile_write_gh ip) 0,
              Event.write_alloc_required ip gi.gi_offset gi.gi_size,
              Event.alloc_get ip,
              Event.inplace_reserve ip (hfile_write_requested env gi ip) 0,
              Event.trans_begin (hfile_write_blocks env gi ip) 0 0,
              Event.jdata_write ip gi.gi_data gi.gi_offset gi.gi_size,
              Event.trans_end,
              Event.inplace_release ip,
              Event.alloc_put ip,
              Event.glock_dq (hfile_write_gh ip)], st.inodes⟩)) := by
  simp only [hfile_write_gh, hfile_write_requested, hfile_write_blocks] at hlock ⊢
  refine ⟨?_, ?_, ?_⟩
  · intro hr
    simp [gi_do_hfile_write, hfile_write_locked, hfile_write_data, hfile_write_out_relse,
      hfile_write_out_alloc, hfile_write_out, hcap, hip, hreg, hacc, hlock, hjd, hreq, hneed,
      hr, emit]
  · intro hr hb
    simp [gi_do_hfile_write, hfile_write_locked, hfile_write_data, hfile_write_out_relse,
      hfile_write_out_alloc, hfile_write_out, hcap, hip, hreg, hacc, hlock, hjd, hreq, hneed,
      hr, hb, emit]
  · intro hr hb
    simp [gi_do_hfile_write, hfile_write_locked, hfile_write_data, hfile_write_out_relse,
      hfile_write_out_alloc, hfile_write_out, hcap, hip, hreg, hacc, hlock, hjd, hreq, hneed,
      hr, hb, emit]

/-- The hypotheses of the theorem for C11 hold at a concrete input: a write of
4096 bytes to the journal index that needs allocation, every step succeeding. -/
theorem reservation_order_witness :
    gi2hip env_root (req 2 ["do_hfile_write", "jindex"] 4096) = Except.ok 1 ∧
    env_root.gfs2_write_alloc_required 1 0 4096 = (0, 1) ∧
    gi_do_hfile_write env_root (req 2 ["do_hfile_write", "jindex"] 4096) (st_of di_jdata) =
      (4096,
        ⟨[Event.glock_nq (hfile_write_gh 1) 0,
            Event.write_alloc_required 1 0 4096,
            Event.alloc_get 1,
            Event.inplace_reserve 1 2 0,
            Event.trans_begin 7 0 0,
            Event.jdata_write 1 0 0 4096,
            Event.trans_end,
            Event.inplace_release 1,
            Event.alloc_put 1,
            Event.glock_dq (hfile_write_gh 1)], (st_of di_jdata).inodes⟩) :=
  ⟨rfl, rfl,
    (reservation_order env_root (req 2 ["do_hfile_write", "jindex"] 4096) 1 (st_of di_jdata)
      rfl rfl (by decide) rfl rfl (by decide) rfl (by decide)).2.2 rfl rfl⟩

/-- C12. With argument count 2 and a readable name, `gi2hip` returns the
journal-index inode for "jindex", the resize-index inode for "rindex", the quota
inode for "quota" and `-EINVAL` for every other name, also for names of more
than 31 characters; when the three inodes differ each is returned for its own
name only.  A handler given another name returns `-EINVAL` with the state as it
was: no lock and no lookup. -/
theorem gi2hip_names (env : Env) (gi : gfs2_ioctl) (st : State) (s : List Char)
    (hargc : gi.gi_argc = 2) (hs : gi.gi_argv 1 = some s) :
    gi2hip env gi =
      (if s = "jindex".toList then Except.ok env.sd_jindex
        else if s = "rindex".toList then Except.ok env.sd_rindex
        else if s = "quota".toList then Except.ok env.sd_quota_inode
        else Except.error (-EINVAL)) ∧
    (31 < s.length → gi2hip env gi = Except.error (-EINVAL)) ∧
    (env.sd_jindex ≠ env.sd_rindex → env.sd_jindex ≠ env.sd_quota_inode →
      env.sd_rindex ≠ env.sd_quota_inode →
      (gi2hip env gi = Except.ok env.sd_jindex ↔ s = "jindex".toList) ∧
      (gi2hip env gi = Except.ok env.sd_rindex ↔ s = "rindex".toList) ∧
      (gi2hip env gi = Except.ok env.sd_quota_inode ↔ s = "quota".toList)) ∧
    (s ≠ "jindex".toList → s ≠ "rindex".toList → s ≠ "quota".toList →
      gi_get_hfile_stat env gi st = (-EINVAL, st)) := by
  have key : gi2hip env gi =
      (if s = "jindex".toList then Except.ok env.sd_jindex
        else if s = "rindex".toList then Except.ok env.sd_rindex
        else if s = "quota".toList then Except.ok env.sd_quota_inode
        else Except.error (-EINVAL)) := by
    simp only [gi2hip, hargc, hs, strncpy_from_user, Option.map,
      streq_arg s _ (show ("jindex").toList.length < 31 by decide),
      streq_arg s _ (show ("rindex").toList.length < 31 by decide),
      streq_arg s _ (show ("quota").toList.length < 31 by decide)]
    simp
  refine ⟨key, ?_, ?_, ?_⟩
  rotate_left 2
  · intro h1 h2 h3
    simp only [gi_get_hfile_stat, key, h1, h2, h3, if_false]
  · intro hlen
    rw [key]
    have h1 : s ≠ "jindex".toList := by intro h; rw [h] at hlen; simp at hlen
    have h2 : s ≠ "rindex".toList := by intro h; rw [h] at hlen; simp at hlen
    have h3 : s ≠ "quota".toList := by intro h; rw [h] at hlen; simp at hlen
    simp only [h1, h2, h3, if_false]
  · intro d1 d2 d3
    rw [key]
    by_cases h1 : s = "jindex".toList
    · subst h1
      simp [d1, d2, d1.symm, d2.symm]
    · by_cases h2 : s = "rindex".toList
      · subst h2
        simp [d1, d3, d1.symm, d3.symm]
      · by_cases h3 : s = "quota".toList
        · subst h3
          simp [d2, d3, d2.symm, d3.symm]
        · simp only [h1, h2, h3, if_false]
          simp

/-- The hypotheses of the theorem for C12 hold at a concrete input: the name
"rindex" gives inode 2 of the example file system, "rindexes" gives `-EINVAL`. -/
theorem gi2hip_names_witness :
    gi2hip env_root (req 2 ["get_hfile_stat", "rindex"] 232) = Except.ok 2 ∧
    gi_get_hfile_stat env_root (req 2 ["get_hfile_stat", "rindexes"] 232) (st_of di_empty) =
      (-EINVAL, st_of di_empty) :=
  ⟨((gi2hip_names env_root (req 2 ["get_hfile_stat", "rindex"] 232) (st_of di_empty)
      "rindex".toList rfl rfl).2.2.1 (by decide) (by decide) (by decide)).2.1.mpr rfl,
    (gi2hip_names env_root (req 2 ["get_hfile_stat", "rindexes"] 232) (st_of di_empty)
      "rindexes".toList rfl rfl).2.2.2 (by decide) (by decide) (by decide)⟩

/-- C13. `gi_do_quota_refresh` (privileged caller) and `gi_do_quota_read`
(buffer of the size of a quota record): an argument whose first character is
neither `u` nor `g`, or whose second is not `:`, gives `-EINVAL` with nothing
done; "u:<n>" calls the quota engine with class user (1) and id `n`, "g:<n>"
with class group (0) and id `n`; both handlers call the quota engine with the
same arguments. -/
theorem quota_class_parsing (env : Env) (gi : gfs2_ioctl) (st : State) (s : List Char)
    (hargc : gi.gi_argc = 2) (hs : gi.gi_argv 1 = some s) :
    (env.capable Cap.CAP_SYS_ADMIN = true →
      ((s.head? ≠ some 'u' ∧ s.head? ≠ some 'g') ∨ (s.drop 1).head? ≠ some ':' →
        gi_do_quota_refresh env gi st = (-EINVAL, st)) ∧
      (∀ n, n < U32 →
        (s = 'u' :: ':' :: decimal n →
          gi_do_quota_refresh env gi st =
            (env.gfs2_quota_refresh 1 n, emit (Event.quota_refresh 1 n) st)) ∧
        (s = 'g' :: ':' :: decimal n →
          gi_do_quota_refresh env gi st =
            (env.gfs2_quota_refresh 0 n, emit (Event.quota_refresh 0 n) st)))) ∧
    (gi.gi_size = env.sizeof_gfs2_quota →
      ((s.head? ≠ some 'u' ∧ s.head? ≠ some 'g') ∨ (s.drop 1).head? ≠ some ':' →
        gi_do_quota_read env gi st = (-EINVAL, st)) ∧
      (∀ n, n < U32 →
        (s = 'u' :: ':' :: decimal n →
          ∃ evs, (gi_do_quota_read env gi st).2.log = st.log ++ evs ∧
            quota_calls evs = [(1, n)]) ∧
        (s = 'g' :: ':' :: decimal n →
          ∃ evs, (gi_do_quota_read env gi st).2.log = st.log ++ evs ∧
            quota_calls evs = [(0, n)]))) ∧
    (env.capable Cap.CAP_SYS_ADMIN = true → gi.gi_size = env.sizeof_gfs2_quota →
      ∃ evs1 evs2, (gi_do_quota_refresh env gi st).2.log = st.log ++ evs1 ∧
        (gi_do_quota_read env gi st).2.log = st.log ++ evs2 ∧
        quota_calls evs1 = quota_calls evs2) := by
  have hbad : (s.head? ≠ some 'u' ∧ s.head? ≠ some 'g') ∨ (s.drop 1).head? ≠ some ':' →
      quota_arg (s.take 31) = none := by
    intro h
    apply quota_arg_bad
    rw [(head_take31 s).1, (head_take31 s).2]
    exact h
  have hu : ∀ n, n < U32 → s = 'u' :: ':' :: decimal n →
      quota_arg (s.take 31) = some (1, n) := by
    intro n hn he
    have hq := quota_arg_decimal 'u' n (Or.inl rfl) hn
    rw [← he] at hq
    simpa using hq
  have hg : ∀ n, n < U32 → s = 'g' :: ':' :: decimal n →
      quota_arg (s.take 31) = some (0, n) := by
    intro n hn he
    have hq := quota_arg_decimal 'g' n (Or.inr rfl) hn
    rw [← he] at hq
    have h0 : (if 'g' = 'u' then 1 else 0 : Nat) = 0 := by decide
    rw [h0] at hq
    exact hq
  refine ⟨?_, ?_, ?_⟩
  · intro hcap
    obtain ⟨_, hnone, hsome⟩ := quota_refresh_calls env gi st s hcap hargc hs
    exact ⟨fun h => hnone (hbad h),
      fun n hn => ⟨fun he => hsome 1 n (hu n hn he), fun he => hsome 0 n (hg n hn he)⟩⟩
  · intro hsize
    obtain ⟨⟨evs, hl, hq⟩, hnone⟩ := quota_read_calls env gi st s hsize hargc hs
    refine ⟨fun h => hnone (hbad h), fun n hn => ⟨fun he => ⟨evs, hl, ?_⟩, fun he => ⟨evs, hl, ?_⟩⟩⟩
    · rw [hq, hu n hn he]; rfl
    · rw [hq, hg n hn he]; rfl
  · intro hcap hsize
    obtain ⟨⟨evs1, hl1, hq1⟩, _⟩ := quota_refresh_calls env gi st s hcap hargc hs
    obtain ⟨⟨evs2, hl2, hq2⟩, _⟩ := quota_read_calls env gi st s hsize hargc hs
    exact ⟨evs1, evs2, hl1, hl2, hq1.trans hq2.symm⟩

/-- The hypotheses of the theorem for C13 hold at a concrete input: "u:1000" is
user 1000 for `gi_do_quota_refresh`, and "x:1000" is refused by `gi_do_quota_read`. -/
theorem quota_class_parsing_witness :
    gi_do_quota_refresh env_root (req 2 ["do_quota_refresh", "u:1000"] 0) (st_of di_empty) =
      (0, emit (Event.quota_refresh 1 1000) (st_of di_empty)) ∧
    gi_do_quota_read env_root (req 2 ["do_quota_read", "x:1000"] 88) (st_of di_empty) =
      (-EINVAL, st_of di_empty) :=
  ⟨(((quota_class_parsing env_root (req 2 ["do_quota_refresh", "u:1000"] 0) (st_of di_empty)
      "u:1000".toList rfl rfl).1 rfl).2 1000 (by decide)).1 (by simp [decimal]),
    ((quota_class_parsing env_root (req 2 ["do_quota_read", "x:1000"] 88) (st_of di_empty)
      "x:1000".toList rfl rfl).2.1 rfl).1 (Or.inl (by decide))⟩

/-- C14, as stated, fails. The id "12abc" is accepted as 12 by
`gi_do_quota_refresh`, and " 7" (a blank before the digit) as 7 by
`gi_do_quota_read`: the quota engine is called and the handlers return 0. -/
theorem quota_id_trailing_text :
    gi_do_quota_refresh env_root (req 2 ["do_quota_refresh", "u:12abc"] 0) (st_of di_empty) =
      (0, ⟨[Event.quota_refresh 1 12], (st_of di_empty).inodes⟩) ∧
    (gi_do_quota_read env_root (req 2 ["do_quota_read", "g: 7"] 88) (st_of di_empty)).1 = 0 ∧
    (gi_do_quota_read env_root (req 2 ["do_quota_read", "g: 7"] 88) (st_of di_empty)).2.log =
      [Event.quota_read 0 7, Event.copy_to_user 0 (Payload.quota ⟨0, 0, 0⟩) true] := by
  refine ⟨?_, by decide, by decide⟩
  rfl

/-- C14, amended. After "u:" or "g:" the id is read as `sscanf` reads `%u` from
the first 29 characters: white space is skipped; if the next character is not a
digit the handler returns `-EINVAL` and nothing is done; otherwise the quota
engine is called with the value of the digits that follow, modulo 2^32, and
what comes after them is ignored.  For an id that starts with digits this is
the value of its first 29 digits at most. -/
theorem quota_id_parsing (env : Env) (gi : gfs2_ioctl) (st : State) (c : Char) (t : List Char)
    (hargc : gi.gi_argc = 2) (hc : c = 'u' ∨ c = 'g')
    (hs : gi.gi_argv 1 = some (c :: ':' :: t)) :
    (env.capable Cap.CAP_SYS_ADMIN = true →
      ((∀ ch, ((t.take 29).dropWhile isspace).head? = some ch → isdigit ch = false) →
        gi_do_quota_refresh env gi st = (-EINVAL, st)) ∧
      (∀ ch, ((t.take 29).dropWhile isspace).head? = some ch → isdigit ch = true →
        ∃ evs, (gi_do_quota_refresh env gi st).2.log = st.log ++ evs ∧
          quota_calls evs =
            [(if c = 'u' then 1 else 0,
              simple_strtoul ((t.take 29).dropWhile isspace) % U32)]) ∧
      (∀ ds rest, t = ds ++ rest → ds ≠ [] → (∀ d ∈ ds, isdigit d = true) →
        (∀ ch, rest.head? = some ch → isdigit ch = false) →
        ∃ evs, (gi_do_quota_refresh env gi st).2.log = st.log ++ evs ∧
          quota_calls evs =
            [(if c = 'u' then 1 else 0, decimal_value (ds.take 29) % U32)])) ∧
    (gi.gi_size = env.sizeof_gfs2_quota →
      ((∀ ch, ((t.take 29).dropWhile isspace).head? = some ch → isdigit ch = false) →
        gi_do_quota_read env gi st = (-EINVAL, st)) ∧
      (∀ ch, ((t.take 29).dropWhile isspace).head? = some ch → isdigit ch = true →
        ∃ evs, (gi_do_quota_read env gi st).2.log = st.log ++ evs ∧
          quota_calls evs =
            [(if c = 'u' then 1 else 0,
              simple_strtoul ((t.take 29).dropWhile isspace) % U32)]) ∧
      (∀ ds rest, t = ds ++ rest → ds ≠ [] → (∀ d ∈ ds, isdigit d = true) →
        (∀ ch, rest.head? = some ch → isdigit ch = false) →
        ∃ evs, (gi_do_quota_read env gi st).2.log = st.log ++ evs ∧
          quota_calls evs =
            [(if c = 'u' then 1 else 0, decimal_value (ds.take 29) % U32)])) := by
  constructor
  · intro hcap
    obtain ⟨⟨evs, hl, hq⟩, hnone, _⟩ := quota_refresh_calls env gi st _ hcap hargc hs
    refine ⟨fun h => hnone (quota_arg_id_none c t hc h),
      fun ch h hd => ⟨evs, hl, ?_⟩, fun ds rest ht hne hall hrest => ⟨evs, hl, ?_⟩⟩
    · rw [hq, quota_arg_id_some c t hc ch h hd]; rfl
    · subst ht
      rw [hq, quota_arg_id_digits c ds rest hc hne hall hrest]; rfl
  · intro hsize
    obtain ⟨⟨evs, hl, hq⟩, hnone⟩ := quota_read_calls env gi st _ hsize hargc hs
    refine ⟨fun h => hnone (quota_arg_id_none c t hc h),
      fun ch h hd => ⟨evs, hl, ?_⟩, fun ds rest ht hne hall hrest => ⟨evs, hl, ?_⟩⟩
    · rw [hq, quota_arg_id_some c t hc ch h hd]; rfl
    · subst ht
      rw [hq, quota_arg_id_digits c ds rest hc hne hall hrest]; rfl

/-- The hypotheses of the theorem for C14 (amended) hold at a concrete input:
"u:12abc" calls the quota engine for user 12, "u:abc" is refused. -/
theorem quota_id_parsing_witness :
    (∃ evs, (gi_do_quota_refresh env_root (req 2 ["do_quota_refresh", "u:12abc"] 0)
        (st_of di_empty)).2.log = (st_of di_empty).log ++ evs ∧ quota_calls evs = [(1, 12)]) ∧
    gi_do_quota_refresh env_root (req 2 ["do_quota_refresh", "u:abc"] 0) (st_of di_empty) =
      (-EINVAL, st_of di_empty) :=
  ⟨((quota_id_parsing env_root (req 2 ["do_quota_refresh", "u:12abc"] 0) (st_of di_empty)
      'u' "12abc".toList rfl (Or.inl rfl) rfl).1 rfl).2.2 "12".toList "abc".toList rfl
      (by decide) (by decide) (by decide),
    ((quota_id_parsing env_root (req 2 ["do_quota_refresh", "u:abc"] 0) (st_of di_empty)
      'u' "abc".toList rfl (Or.inl rfl) rfl).1 rfl).1 (by decide)⟩

/-- C15, as stated, fails. A caller without `CAP_SYS_ADMIN` whose buffer size
is not a multiple of the record size gets `-EACCES`, not `-EINVAL`. -/
theorem resize_unprivileged :
    ¬ env_user.sizeof_gfs2_rindex ∣ (req 1 ["resize_add_rgrps"] 1).gi_size ∧
    gi_resize_add_rgrps env_user (req 1 ["resize_add_rgrps"] 1) (st_of di_empty) =
      (-EACCES, st_of di_empty) ∧
    (-EACCES : Int) ≠ -EINVAL := by
  refine ⟨by decide, rfl, by decide⟩

/-- C15, amended. When the buffer size is not a multiple of the size of a
resize-index record, `gi_resize_add_rgrps` does nothing and returns `-EINVAL` to
a privileged caller and `-EACCES` to any other; for a privileged caller with
argument count 1 and a size that is a multiple (0 included) it calls
`gfs2_resize_add_rgrps` once with the buffer and the size and returns its
result. -/
theorem resize_size_check (env : Env) (gi : gfs2_ioctl) (st : State) :
    (¬ env.sizeof_gfs2_rindex ∣ gi.gi_size →
      (gi_resize_add_rgrps env gi st).2 = st ∧
      (gi_resize_add_rgrps env gi st).1 =
        (if env.capable Cap.CAP_SYS_ADMIN = true then -EINVAL else -EACCES)) ∧
    (env.capable Cap.CAP_SYS_ADMIN = true → gi.gi_argc = 1 →
      env.sizeof_gfs2_rindex ∣ gi.gi_size →
      gi_resize_add_rgrps env gi st =
        (env.gfs2_resize_add_rgrps gi.gi_data gi.gi_size,
          emit (Event.resize_add_rgrps gi.gi_data gi.gi_size) st)) := by
  constructor
  · intro hnd
    have hmod : gi.gi_size % env.sizeof_gfs2_rindex ≠ 0 := by
      intro h
      exact hnd (Nat.dvd_of_mod_eq_zero h)
    cases hcap : env.capable Cap.CAP_SYS_ADMIN <;>
      by_cases ha : gi.gi_argc = 1 <;>
      simp [gi_resize_add_rgrps, hcap, ha, hmod]
  · intro hcap ha hd
    have hmod : gi.gi_size % env.sizeof_gfs2_rindex = 0 := Nat.mod_eq_zero_of_dvd hd
    simp [gi_resize_add_rgrps, hcap, ha, hmod]

/-- The theorem for C15 (amended) at a concrete input: a privileged caller with
two records (192 bytes) reaches `gfs2_resize_add_rgrps`; with 100 bytes the
result is `-EINVAL`. -/
theorem resize_size_check_witness :
    gi_resize_add_rgrps env_root (req 1 ["resize_add_rgrps"] 192) (st_of di_empty) =
      (0, emit (Event.resize_add_rgrps 0 192) (st_of di_empty)) ∧
    (gi_resize_add_rgrps env_root (req 1 ["resize_add_rgrps"] 100) (st_of di_empty)).1 =
      -EINVAL :=
  ⟨(resize_size_check env_root (req 1 ["resize_add_rgrps"] 192) (st_of di_empty)).2
      rfl rfl (by decide),
    ((resize_size_check env_root (req 1 ["resize_add_rgrps"] 100) (st_of di_empty)).1
      (by decide)).2⟩

/-- C16. `gi_get_bmap` for the owner (or a holder of `CAP_FOWNER`) with an
8-byte readable buffer and the lock granted: when the inode is stuffed, or
`gfs2_block_map` succeeds without a block, the value copied back is 0 and the
handler returns 0 when that copy succeeds.  On every path `gfs2_block_map` is
called for unstuffed inodes only, with `new` equal to 0. -/
theorem get_bmap_unallocated (env : Env) (ip : Ino) (gi : gfs2_ioctl) (st : State) :
    (∀ lblock, gi.gi_argc = 1 → gi.gi_size = 8 →
      env.copy_from_user_u64 gi.gi_data = some lblock →
      env.gfs2_glock_nq (get_bmap_gh ip) = 0 →
      ((st.inodes ip).di_uid = env.fsuid ∨ env.capable Cap.CAP_FOWNER = true) →
      (env.gfs2_is_stuffed (st.inodes ip) = true →
        gi_get_bmap env ip gi st =
          (if env.copy_to_user_ok gi.gi_data 8 = true then 0 else -EFAULT,
            ⟨st.log ++
              [Event.copy_from_user gi.gi_data 8 true,
                Event.glock_nq (get_bmap_gh ip) 0,
                Event.glock_dq (get_bmap_gh ip),
                Event.copy_to_user gi.gi_data (Payload.dblock 0)
                  (env.copy_to_user_ok gi.gi_data 8)], st.inodes⟩)) ∧
      (env.gfs2_is_stuffed (st.inodes ip) = false →
        env.gfs2_block_map ip lblock 0 = (0, none) →
        gi_get_bmap env ip gi st =
          (if env.copy_to_user_ok gi.gi_data 8 = true then 0 else -EFAULT,
            ⟨st.log ++
              [Event.copy_from_user gi.gi_data 8 true,
                Event.glock_nq (get_bmap_gh ip) 0,
                Event.block_map ip lblock 0 0,
                Event.glock_dq (get_bmap_gh ip),
                Event.copy_to_user gi.gi_data (Payload.dblock 0)
                  (env.copy_to_user_ok gi.gi_data 8)], st.inodes⟩))) ∧
    (∃ evs, (gi_get_bmap env ip gi st).2.log = st.log ++ evs ∧
      ∀ i l n err, Event.block_map i l n err ∈ evs →
        n = 0 ∧ i = ip ∧ env.gfs2_is_stuffed (st.inodes ip) = false) := by
  refine ⟨?_, get_bmap_block_map_calls env ip gi st⟩
  intro lblock hargc hsize hcopy hlock hown
  simp only [get_bmap_gh] at hlock ⊢
  constructor
  · intro hst
    rcases hown with ho | ho <;>
      cases hok : env.copy_to_user_ok gi.gi_data 8 <;>
      simp [gi_get_bmap, hargc, hsize, hcopy, hlock, ho, hst, hok, emit]
  · intro hst hbm
    rcases hown with ho | ho <;>
      cases hok : env.copy_to_user_ok gi.gi_data 8 <;>
      simp [gi_get_bmap, hargc, hsize, hcopy, hlock, ho, hst, hbm, hok, emit]

/-- The theorem for C16 at a concrete input: the owner asks for block 0 of an
unstuffed file for which `gfs2_block_map` finds no block, and of a stuffed file. -/
theorem get_bmap_unallocated_witness :
    gi_get_bmap env_owner 7 (req 1 ["get_bmap"] 8) (st_of di_data) =
      (0, ⟨[Event.copy_from_user 0 8 true,
            Event.glock_nq (get_bmap_gh 7) 0,
            Event.block_map 7 0 0 0,
            Event.glock_dq (get_bmap_gh 7),
            Event.copy_to_user 0 (Payload.dblock 0) true], (st_of di_data).inodes⟩) ∧
    (gi_get_bmap env_owner 7 (req 1 ["get_bmap"] 8) (st_of di_empty)).1 = 0 :=
  ⟨((get_bmap_unallocated env_owner 7 (req 1 ["get_bmap"] 8) (st_of di_data)).1 0
      rfl rfl rfl rfl (Or.inl rfl)).2 (by decide) rfl,
    congrArg Prod.fst (((get_bmap_unallocated env_owner 7 (req 1 ["get_bmap"] 8)
      (st_of di_empty)).1 0 rfl rfl rfl rfl (Or.inl rfl)).1 (by decide))⟩

/-- C17. `gi_do_hfile_write` by a privileged caller on a hidden regular file
without the journaled-data flag: once the exclusive lock is granted the handler
calls `gfs2_consist_inode` once, returns `-EIO`, and releases the lock; there is
no allocation check, reservation, transaction or write. -/
theorem not_jdata_is_inconsistent (env : Env) (gi : gfs2_ioctl) (ip : Ino) (st : State)
    (hcap : env.capable Cap.CAP_SYS_ADMIN = true) (hip : gi2hip env gi = Except.ok ip)
    (hreg : S_ISREG (st.inodes ip).di_mode = true)
    (hacc : env.access_ok gi.gi_data gi.gi_size = true)
    (hlock : env.gfs2_glock_nq (hfile_write_gh ip) = 0)
    (hjd : env.gfs2_is_jdata (st.inodes ip) = false) :
    gi_do_hfile_write env gi st =
      (- EIO,
        ⟨st.log ++
          [Event.glock_nq (hfile_write_gh ip) 0, Event.consist_inode ip,
            Event.glock_dq (hfile_write_gh ip)], st.inodes⟩) := by
  simp only [hfile_write_gh] at hlock ⊢
  simp [gi_do_hfile_write, hfile_write_locked, hfile_write_out, hcap, hip, hreg, hacc, hlock,
    hjd, emit]

/-- The hypotheses of the theorem for C17 hold at a concrete input: a write to a
journal index that is a regular file without the journaled-data flag. -/
theorem not_jdata_is_inconsistent_witness :
    gi2hip env_root (req 2 ["do_hfile_write", "jindex"] 4096) = Except.ok 1 ∧
    env_root.gfs2_is_jdata ((st_of di_data).inodes 1) = false ∧
    gi_do_hfile_write env_root (req 2 ["do_hfile_write", "jindex"] 4096) (st_of di_data) =
      (- EIO,
        ⟨[Event.glock_nq (hfile_write_gh 1) 0, Event.consist_inode 1,
            Event.glock_dq (hfile_write_gh 1)], (st_of di_data).inodes⟩) :=
  ⟨rfl, by decide,
    not_jdata_is_inconsistent env_root (req 2 ["do_hfile_write", "jindex"] 4096) 1
      (st_of di_data) rfl rfl (by decide) rfl rfl (by decide)⟩

/-- C18. For every record header `GFS2_EA_STRLEN` is the prefix length plus the
stored name length plus 1, where the prefix length is 5 when the type is
`GFS2_EATYPE_USR` and 7 for every other type. -/
theorem ea_strlen (GFS2_EATYPE_USR : Nat) (ea : gfs2_ea_header) :
    GFS2_EA_STRLEN GFS2_EATYPE_USR ea =
      (if ea.ea_type = GFS2_EATYPE_USR then 5 else 7) + ea.ea_name_len + 1 ∧
    (ea.ea_type = GFS2_EATYPE_USR →
      GFS2_EA_STRLEN GFS2_EATYPE_USR ea = 5 + ea.ea_name_len + 1) ∧
    (ea.ea_type ≠ GFS2_EATYPE_USR →
      GFS2_EA_STRLEN GFS2_EATYPE_USR ea = 7 + ea.ea_name_len + 1) := by
  refine ⟨rfl, fun h => ?_, fun h => ?_⟩
  · simp [GFS2_EA_STRLEN, h]
  · simp [GFS2_EA_STRLEN, h]

/-- C19. Every successful `set_file_flag` call names "set" or "clear" and one
of the six flags; the new flag word is the old one OR the flag ("set") or the
old one AND NOT the flag ("clear"), so every other flag bit and every other
field of the record is unchanged; the record is written out after the buffer
was added to the transaction; repeating the call succeeds again and changes no
record (idempotence); a failing call changes no record and writes none out. -/
theorem set_file_flag_effect (env : Env) (ip : Ino) (gi : gfs2_ioctl) (st : State) :
    ((gi_set_file_flag env ip gi st).1 = 0 →
      ∃ s1 s2 flag, gi.gi_argv 1 = some s1 ∧ gi.gi_argv 2 = some s2 ∧
        (s1 = "set".toList ∨ s1 = "clear".toList) ∧ named_flag env s2 = some flag ∧
        (gi_set_file_flag env ip gi st).2 =
          ⟨st.log ++ [Event.glock_nq (set_file_flag_gh ip) 0,
              Event.trans_begin env.RES_DINODE 0 0,
              Event.meta_inode_buffer ip 0,
              Event.trans_add_bh (Glock.inode ip),
              Event.dinode_out ip (apply_flag (decide (s1 = "set".toList)) flag (st.inodes ip)),
              Event.brelse,
              Event.trans_end,
              Event.glock_dq (set_file_flag_gh ip)],
            Function.update st.inodes ip
              (apply_flag (decide (s1 = "set".toList)) flag (st.inodes ip))⟩ ∧
        (gi_set_file_flag env ip gi (gi_set_file_flag env ip gi st).2).1 = 0 ∧
        (gi_set_file_flag env ip gi (gi_set_file_flag env ip gi st).2).2.inodes =
          (gi_set_file_flag env ip gi st).2.inodes) ∧
    ((gi_set_file_flag env ip gi st).1 ≠ 0 →
      (gi_set_file_flag env ip gi st).2.inodes = st.inodes ∧
      ∃ evs, (gi_set_file_flag env ip gi st).2.log = st.log ++ evs ∧
        ∀ i d, Event.dinode_out i d ∉ evs) ∧
    (∀ (flag : Nat) (di : gfs2_dinode),
      (apply_flag true flag di).di_flags = di.di_flags ||| flag ∧
      (di.di_flags < U32 → ∀ i, (apply_flag false flag di).di_flags.testBit i =
        (di.di_flags.testBit i && !flag.testBit i)) ∧
      ∀ set : Bool,
        { apply_flag set flag di with di_flags := di.di_flags } = di ∧
        (di.di_flags < U32 → ∀ i, flag.testBit i = false →
          (apply_flag set flag di).di_flags.testBit i = di.di_flags.testBit i) ∧
        apply_flag set flag (apply_flag set flag di) = apply_flag set flag di) := by
  refine ⟨?_, ?_, ?_⟩
  · intro h0
    rcases set_file_flag_result env ip gi st with ⟨hne, _⟩ | ⟨s1, s2, flag, hp⟩
    · exact absurd h0 hne
    · have hr := set_file_flag_ok env ip gi st s1 s2 flag hp
      have hp2 := set_file_flag_passes_again env ip gi (st.inodes ip) s1 s2 flag
        (decide (s1 = "set".toList)) hp
      obtain ⟨_, h1, h2, hs1, _, _, hsel, _, _⟩ := hp
      refine ⟨s1, s2, flag, h1, h2, hs1, select_named env _ s2 flag hsel, ?_, ?_⟩
      · rw [hr]
        rfl
      · have hst : ((gi_set_file_flag env ip gi st).2.inodes ip) =
            apply_flag (decide (s1 = "set".toList)) flag (st.inodes ip) := by
          rw [hr]
          simp
        rw [← hst] at hp2
        have hr2 := set_file_flag_ok env ip gi (gi_set_file_flag env ip gi st).2 s1 s2 flag hp2
        rw [hr2]
        refine ⟨rfl, ?_⟩
        simp only [hst, apply_flag_idem]
        rw [hr]
        simp
  · intro hne
    rcases set_file_flag_result env ip gi st with ⟨_, hin, hlog⟩ | ⟨s1, s2, flag, hp⟩
    · exact ⟨hin, hlog⟩
    · have hr := set_file_flag_ok env ip gi st s1 s2 flag hp
      rw [hr] at hne
      exact absurd rfl hne
  · intro flag di
    refine ⟨by simp [apply_flag], fun h i => apply_flag_clear_bit flag di h i, ?_⟩
    intro set
    refine ⟨by cases set <;> rfl, ?_, apply_flag_idem set flag di⟩
    intro h i hi
    cases set
    · rw [apply_flag_clear_bit flag di h i, hi]
      simp
    · simp [apply_flag, Nat.testBit_or, hi]

/-- The theorem for C19 at a concrete input: the owner sets "directio" on an
empty regular file; the call succeeds, and so does its repetition. -/
theorem set_file_flag_effect_witness :
    (gi_set_file_flag env_owner 0 (req 3 ["set_file_flag", "set", "directio"] 0)
      (st_of di_empty)).1 = 0 ∧
    (gi_set_file_flag env_owner 0 (req 3 ["set_file_flag", "set", "directio"] 0)
      (gi_set_file_flag env_owner 0 (req 3 ["set_file_flag", "set", "directio"] 0)
        (st_of di_empty)).2).1 = 0 :=
  ⟨by decide, by
    obtain ⟨_, _, _, _, _, _, _, _, h, _⟩ :=
      (set_file_flag_effect env_owner 0 (req 3 ["set_file_flag", "set", "directio"] 0)
        (st_of di_empty)).1 (by decide)
    exact h⟩

/-- C20 on the code, for the owner with the lock granted: "jdata" and
"directio" are rejected with `-EINVAL` unless the target is a regular file,
"inherit_jdata" is rejected unless it is a directory and accepted when it is,
and an unrecognised name is rejected; a rejection releases the lock, changes no
record and begins no transaction.  But "inherit_directio" is rejected when the
target IS a directory and accepted when it is not. -/
theorem set_file_flag_type_checks (env : Env) (ip : Ino) (gi : gfs2_ioctl) (st : State)
    (s1 s2 : List Char)
    (hargc : gi.gi_argc = 3) (h1 : gi.gi_argv 1 = some s1)
    (hs1 : s1 = "set".toList ∨ s1 = "clear".toList) (h2 : gi.gi_argv 2 = some s2)
    (hlock : env.gfs2_glock_nq (set_file_flag_gh ip) = 0)
    (hown : (st.inodes ip).di_uid = env.fsuid) :
    (s2 = "jdata".toList ∨ s2 = "directio".toList →
      S_ISREG (st.inodes ip).di_mode = false →
      gi_set_file_flag env ip gi st =
        (-EINVAL, ⟨st.log ++ [Event.glock_nq (set_file_flag_gh ip) 0,
          Event.glock_dq (set_file_flag_gh ip)], st.inodes⟩)) ∧
    (s2 = "inherit_jdata".toList → S_ISDIR (st.inodes ip).di_mode = false →
      gi_set_file_flag env ip gi st =
        (-EINVAL, ⟨st.log ++ [Event.glock_nq (set_file_flag_gh ip) 0,
          Event.glock_dq (set_file_flag_gh ip)], st.inodes⟩)) ∧
    (s2 = "inherit_jdata".toList → S_ISDIR (st.inodes ip).di_mode = true →
      env.gfs2_trans_begin env.RES_DINODE 0 = 0 → env.gfs2_meta_inode_buffer ip = 0 →
      gi_set_file_flag env ip gi st =
        (0, ⟨st.log ++ set_file_flag_success_log env ip
            (apply_flag (decide (s1 = "set".toList)) env.GFS2_DIF_INHERIT_JDATA (st.inodes ip)),
          Function.update st.inodes ip
            (apply_flag (decide (s1 = "set".toList)) env.GFS2_DIF_INHERIT_JDATA
              (st.inodes ip))⟩)) ∧
    (s2 = "inherit_directio".toList → S_ISDIR (st.inodes ip).di_mode = true →
      gi_set_file_flag env ip gi st =
        (-EINVAL, ⟨st.log ++ [Event.glock_nq (set_file_flag_gh ip) 0,
          Event.glock_dq (set_file_flag_gh ip)], st.inodes⟩)) ∧
    (s2 = "inherit_directio".toList → S_ISDIR (st.inodes ip).di_mode = false →
      env.gfs2_trans_begin env.RES_DINODE 0 = 0 → env.gfs2_meta_inode_buffer ip = 0 →
      gi_set_file_flag env ip gi st =
        (0, ⟨st.log ++ set_file_flag_success_log env ip
            (apply_flag (decide (s1 = "set".toList)) env.GFS2_DIF_INHERIT_DIRECTIO
              (st.inodes ip)),
          Function.update st.inodes ip
            (apply_flag (decide (s1 = "set".toList)) env.GFS2_DIF_INHERIT_DIRECTIO
              (st.inodes ip))⟩)) ∧
    (named_flag env s2 = none →
      gi_set_file_flag env ip gi st =
        (-EINVAL, ⟨st.log ++ [Event.glock_nq (set_file_flag_gh ip) 0,
          Event.glock_dq (set_file_flag_gh ip)], st.inodes⟩)) := by
  have hrej := set_file_flag_rejected env ip gi st s1 s2 (-EINVAL) hargc h1 hs1 h2 hlock hown
  have hacc : ∀ flag,
      set_file_flag_select env (st.inodes ip) (terminate (List.take ARG_SIZE s2)) =
        Except.ok flag →
      env.gfs2_trans_begin env.RES_DINODE 0 = 0 → env.gfs2_meta_inode_buffer ip = 0 →
      gi_set_file_flag env ip gi st =
        (0, ⟨st.log ++ set_file_flag_success_log env ip
            (apply_flag (decide (s1 = "set".toList)) flag (st.inodes ip)),
          Function.update st.inodes ip
            (apply_flag (decide (s1 = "set".toList)) flag (st.inodes ip))⟩) :=
    fun flag hsel hb hm => set_file_flag_ok env ip gi st s1 s2 flag
      ⟨hargc, h1, h2, hs1, hlock, Or.inl hown, hsel, hb, hm⟩
  refine ⟨?_, ?_, ?_, ?_, ?_, ?_⟩
  · rintro (h | h) hreg <;> subst h <;> apply hrej <;>
      simp [set_file_flag_select, streq_arg, hreg]
  · intro h hdir
    subst h
    apply hrej
    simp [set_file_flag_select, streq_arg, hdir]
  · intro h hdir
    subst h
    apply hacc
    simp [set_file_flag_select, streq_arg, hdir]
  · intro h hdir
    subst h
    apply hrej
    simp [set_file_flag_select, streq_arg, hdir]
  · intro h hdir
    subst h
    apply hacc
    simp [set_file_flag_select, streq_arg, hdir]
  · intro h
    apply hrej
    exact select_unnamed env _ s2 h

/-- The hypotheses of the theorem for C20 hold at a concrete input: the owner
sets "inherit_directio" on a directory and is refused, sets it on a regular
file and succeeds, and sets "inherit_jdata" on the directory and succeeds. -/
theorem set_file_flag_type_checks_witness :
    S_ISDIR di_dir.di_mode = true ∧ S_ISDIR di_empty.di_mode = false ∧
    gi_set_file_flag env_owner 7 (req 3 ["set_file_flag", "set", "inherit_directio"] 0)
        (st_of di_dir) =
      (-EINVAL, ⟨(st_of di_dir).log ++ [Event.glock_nq (set_file_flag_gh 7) 0,
        Event.glock_dq (set_file_flag_gh 7)], (st_of di_dir).inodes⟩) ∧
    (gi_set_file_flag env_owner 7 (req 3 ["set_file_flag", "set", "inherit_directio"] 0)
        (st_of di_empty)).1 = 0 ∧
    (gi_set_file_flag env_owner 7 (req 3 ["set_file_flag", "set", "inherit_jdata"] 0)
        (st_of di_dir)).1 = 0 :=
  ⟨by decide, by decide,
    (set_file_flag_type_checks env_owner 7
      (req 3 ["set_file_flag", "set", "inherit_directio"] 0) (st_of di_dir)
      "set".toList "inherit_directio".toList rfl rfl (Or.inl rfl) rfl rfl rfl).2.2.2.1
      rfl (by decide),
    congrArg Prod.fst ((set_file_flag_type_checks env_owner 7
      (req 3 ["set_file_flag", "set", "inherit_directio"] 0) (st_of di_empty)
      "set".toList "inherit_directio".toList rfl rfl (Or.inl rfl) rfl rfl rfl).2.2.2.2.1
      rfl (by decide) rfl rfl),
    congrArg Prod.fst ((set_file_flag_type_checks env_owner 7
      (req 3 ["set_file_flag", "set", "inherit_jdata"] 0) (st_of di_dir)
      "set".toList "inherit_jdata".toList rfl rfl (Or.inl rfl) rfl rfl rfl).2.2.1
      rfl (by decide) rfl rfl)⟩

/-- C21, as stated, fails. For a request without data the pointer count is 0,
and a record with zero pointers counts as stuffed: its size then follows its
own data length, 8 bytes here, where the request size has no payload. -/
theorem eareq_unstuffed_no_data :
    ea_eight.ea_name_len = er_empty.er_name_len ∧
    ceiling_of er_empty.er_data_len 4096 ea_eight.ea_num_ptrs ∧
    ea_eight.ea_num_ptrs < 256 ∧
    GFS2_EAREQ_SIZE_UNSTUFFED 16 4096 er_empty = 16 ∧
    GFS2_EA_SIZE 16 ea_eight = 24 := by
  refine ⟨rfl, ⟨by decide, fun m _ => Nat.zero_le m⟩, by decide, by decide, by decide⟩

/-- C21, amended. `GFS2_EAREQ_SIZE_STUFFED` is `GFS2_EA_SIZE` of every stuffed
record with the same name and data lengths.  For a positive block size
`GFS2_EAREQ_SIZE_UNSTUFFED` is `GFS2_EA_SIZE` of every record with the same
name length whose pointer count is the ceiling of the data length divided by
the block size, provided that a record for a request without data has no data
either.  All three are the least multiple of 8 not below header size plus name
length plus payload. -/
theorem eareq_size_agrees (sizeof_gfs2_ea_header : Nat) (er : gfs2_ea_request)
    (ea : gfs2_ea_header) :
    (ea.ea_name_len = er.er_name_len → ea.ea_data_len = er.er_data_len →
      ea.ea_num_ptrs = 0 →
      GFS2_EAREQ_SIZE_STUFFED sizeof_gfs2_ea_header er =
        GFS2_EA_SIZE sizeof_gfs2_ea_header ea) ∧
    (∀ sd_jbsize, 0 < sd_jbsize →
      ceiling_of er.er_data_len sd_jbsize (DIV_RU er.er_data_len sd_jbsize) ∧
      (ea.ea_name_len = er.er_name_len →
        ceiling_of er.er_data_len sd_jbsize ea.ea_num_ptrs →
        (er.er_data_len = 0 → ea.ea_data_len = 0) →
        GFS2_EAREQ_SIZE_UNSTUFFED sizeof_gfs2_ea_header sd_jbsize er =
          GFS2_EA_SIZE sizeof_gfs2_ea_header ea) ∧
      least_multiple_of_8
        (sizeof_gfs2_ea_header + er.er_name_len + 8 * DIV_RU er.er_data_len sd_jbsize)
        (GFS2_EAREQ_SIZE_UNSTUFFED sizeof_gfs2_ea_header sd_jbsize er)) ∧
    least_multiple_of_8 (sizeof_gfs2_ea_header + er.er_name_len + er.er_data_len)
      (GFS2_EAREQ_SIZE_STUFFED sizeof_gfs2_ea_header er) ∧
    least_multiple_of_8 (sizeof_gfs2_ea_header + ea.ea_name_len + ea_payload ea)
      (GFS2_EA_SIZE sizeof_gfs2_ea_header ea) := by
  refine ⟨?_, ?_, MAKE_MULT8_least _, ?_⟩
  · intro hn hd hp
    simp [GFS2_EAREQ_SIZE_STUFFED, GFS2_EA_SIZE, GFS2_EA_IS_STUFFED, GFS2_EA_DATA_LEN, hn, hd,
      hp]
  · intro sd_jbsize hpos
    have hceil := DIV_RU_ceiling er.er_data_len sd_jbsize hpos
    refine ⟨hceil, ?_, MAKE_MULT8_least _⟩
    intro hn hp hdata
    have hcount : ea.ea_num_ptrs = DIV_RU er.er_data_len sd_jbsize :=
      Nat.le_antisymm (hp.2 _ hceil.1) (hceil.2 _ hp.1)
    by_cases h0 : ea.ea_num_ptrs = 0
    · have hd0 : er.er_data_len = 0 := by
        have := hp.1
        rw [h0] at this
        omega
      have hz : DIV_RU er.er_data_len sd_jbsize = 0 := by rw [← hcount, h0]
      simp [GFS2_EAREQ_SIZE_UNSTUFFED, GFS2_EA_SIZE, GFS2_EA_IS_STUFFED, GFS2_EA_DATA_LEN, hn,
        h0, hz, hdata hd0]
    · have hz : ¬ DIV_RU er.er_data_len sd_jbsize = 0 := by
        rw [← hcount]
        exact h0
      simp [GFS2_EAREQ_SIZE_UNSTUFFED, GFS2_EA_SIZE, GFS2_EA_IS_STUFFED, hn, hcount, hz]
  · have h : GFS2_EA_SIZE sizeof_gfs2_ea_header ea =
        MAKE_MULT8 (sizeof_gfs2_ea_header + ea.ea_name_len + ea_payload ea) := by
      simp [GFS2_EA_SIZE, GFS2_EA_IS_STUFFED, GFS2_EA_DATA_LEN, ea_payload]
    rw [h]
    exact MAKE_MULT8_least _

/-- The theorem for C21 (amended) at a concrete input: a request for 5000 bytes
with blocks of 4096 bytes needs 2 pointers and 40 bytes, the size of the
record with 2 pointers; a stuffed record of 8 bytes takes 24. -/
theorem eareq_size_agrees_witness :
    GFS2_EAREQ_SIZE_UNSTUFFED 16 4096 er_large = GFS2_EA_SIZE 16 ea_large ∧
    GFS2_EA_SIZE 16 ea_large = 40 ∧
    least_multiple_of_8 (16 + ea_eight.ea_name_len + ea_payload ea_eight)
      (GFS2_EA_SIZE 16 ea_eight) :=
  ⟨((eareq_size_agrees 16 er_large ea_large).2.1 4096 (by decide)).2.1 rfl
      ⟨by decide, fun m hm => by
        have h : (5000 : Nat) ≤ m * 4096 := hm
        show 2 ≤ m
        omega⟩
      (fun h => absurd h (by decide)),
    by decide,
    (eareq_size_agrees 16 er_empty ea_eight).2.2.2⟩

end Gfs2
